import Mathlib

/-!
Shallow embedding of the riscv-emulator sources (bus, devices, CSR file,
decoder, CPU core, ELF loader) and proofs about them.

Conventions of the embedding:
* Machine words (u8/u16/u32/u64) are `Nat`; wherever the Rust code wraps
  (wrapping_add, `as uN` truncation, shifts on uN), the embedding applies
  the corresponding `% 2^N` / mask explicitly.
* Signed machine integers (i32/i64) are interpreted through `toI64`/`toI32`
  (two's-complement decoding into `Int`) and re-encoded with `ofI64`/`ofI32`.
* A Rust panic (unmapped bus address, unsupported offset or opcode, slice
  index out of range, division panic) is `Option.none`; fallible ELF parsing
  returns `Except ElfError` inside `Option`.
* `HashMap`s (CSR file, reservation table) are total functions with the
  same read-default; `VecDeque` FIFOs are `List`s (front = head).
* The host terminal (a `read -> Option byte` / `write byte` pair) is
  modelled by a pending-input byte list and an output log inside `Uart`.
-/

/-- The 64-bit modulus `2^64`. -/
def M64 : Nat := 0x10000000000000000

/-- The 32-bit modulus `2^32`. -/
def M32 : Nat := 0x100000000

/-- Decode a `Nat` holding a u64 bit pattern as a two's-complement i64. -/
def toI64 (x : Nat) : Int :=
  if x % M64 < 0x8000000000000000 then ((x % M64 : Nat) : Int)
  else ((x % M64 : Nat) : Int) - (M64 : Int)

/-- Encode an `Int` as the u64 bit pattern of its wrapped i64 value. -/
def ofI64 (x : Int) : Nat := (x % (M64 : Int)).toNat

/-- Decode a `Nat` holding a u32 bit pattern as a two's-complement i32. -/
def toI32 (x : Nat) : Int :=
  if x % M32 < 0x80000000 then ((x % M32 : Nat) : Int)
  else ((x % M32 : Nat) : Int) - (M32 : Int)

/-- Encode an `Int` as the u32 bit pattern of its wrapped i32 value. -/
def ofI32 (x : Int) : Nat := (x % (M32 : Int)).toNat

/-- Rust `x as i32 as i64 as u64` on a u32 pattern: sign-extend 32 to 64 bits. -/
def sext32 (x : Nat) : Nat :=
  if x % M32 < 0x80000000 then x % M32 else x % M32 + (M64 - M32)

/-- Sign-extend the low `w` bits of `x` to a 64-bit pattern. -/
def sextW (w : Nat) (x : Nat) : Nat :=
  if x % 2 ^ w < 2 ^ (w - 1) then x % 2 ^ w else x % 2 ^ w + (M64 - 2 ^ w)

/-- Wrapping 64-bit addition (`u64::wrapping_add`, also
i64 `wrapping_add` re-encoded). -/
def wadd64 (a b : Nat) : Nat := (a + b) % M64

/-- Wrapping 64-bit subtraction (`u64::wrapping_sub`). -/
def wsub64 (a b : Nat) : Nat := (a % M64 + (M64 - b % M64)) % M64

/-- Wrapping 64-bit multiplication (`u64::wrapping_mul`). -/
def wmul64 (a b : Nat) : Nat := (a * b) % M64

namespace decoder

/-- src/decoder.rs `opcode`: `inst & 0x7F`. -/
def opcode (inst : Nat) : Nat := inst &&& 0x7F

/-- src/decoder.rs `rd`: `(inst >> 7) & 0x1F`. -/
def rd (inst : Nat) : Nat := (inst >>> 7) &&& 0x1F

/-- src/decoder.rs `funct3`: `(inst >> 12) & 0x7`. -/
def funct3 (inst : Nat) : Nat := (inst >>> 12) &&& 0x7

/-- src/decoder.rs `rs1`: `(inst >> 15) & 0x1F`. -/
def rs1 (inst : Nat) : Nat := (inst >>> 15) &&& 0x1F

/-- src/decoder.rs `rs2`: `(inst >> 20) & 0x1F`. -/
def rs2 (inst : Nat) : Nat := (inst >>> 20) &&& 0x1F

/-- src/decoder.rs `funct7`: `(inst >> 25) & 0x7F`. -/
def funct7 (inst : Nat) : Nat := (inst >>> 25) &&& 0x7F

/-- src/decoder.rs `imm_i`: `(inst as i32) >> 20`, held as its
sign-extended 64-bit pattern (`imm_i as i64 as u64`). -/
def imm_i (inst : Nat) : Nat := sextW 12 (inst >>> 20)

/-- src/decoder.rs `imm_s`, held as its sign-extended 64-bit pattern. -/
def imm_s (inst : Nat) : Nat :=
  sextW 12 ((((inst >>> 25) &&& 0x7F) <<< 5) ||| ((inst >>> 7) &&& 0x1F))

/-- src/decoder.rs `imm_b`, held as its sign-extended 64-bit pattern. -/
def imm_b (inst : Nat) : Nat :=
  sextW 13 ((((inst >>> 31) &&& 0x1) <<< 12) ||| (((inst >>> 7) &&& 0x1) <<< 11) |||
    (((inst >>> 25) &&& 0x3F) <<< 5) ||| (((inst >>> 8) &&& 0xF) <<< 1))

/-- src/decoder.rs `imm_u`: `(inst & 0xFFFFF000) as i32`, held as its
sign-extended 64-bit pattern. -/
def imm_u (inst : Nat) : Nat := sextW 32 (inst &&& 0xFFFFF000)

/-- src/decoder.rs `imm_j`, held as its sign-extended 64-bit pattern. -/
def imm_j (inst : Nat) : Nat :=
  sextW 21 ((((inst >>> 31) &&& 0x1) <<< 20) ||| (((inst >>> 12) &&& 0xFF) <<< 12) |||
    (((inst >>> 20) &&& 0x1) <<< 11) ||| (((inst >>> 21) &&& 0x3FF) <<< 1))

/-- Modelled from the spec: `decoder::csr_addr` is absent from the
src snapshot (only its caller `Cpu::execute_system` is); the spec defines
`csr_addr = bits[31:20]` of the instruction word. -/
def csr_addr (inst : Nat) : Nat := (inst >>> 20) &&& 0xFFF

end decoder

namespace csr

/-- src/csr.rs `MSTATUS`. -/
def MSTATUS : Nat := 0x300
/-- src/csr.rs `MTVEC`. -/
def MTVEC : Nat := 0x305
/-- src/csr.rs `MEPC`. -/
def MEPC : Nat := 0x341
/-- src/csr.rs `MCAUSE`. -/
def MCAUSE : Nat := 0x342
/-- src/csr.rs `MTVAL`. -/
def MTVAL : Nat := 0x343
/-- src/csr.rs `MHARTID`. -/
def MHARTID : Nat := 0xF14
/-- src/csr.rs `SSTATUS`. -/
def SSTATUS : Nat := 0x100
/-- src/csr.rs `SEPC`. -/
def SEPC : Nat := 0x141

/-- src/csr.rs `MSTATUS_MIE` (bit 3). -/
def MSTATUS_MIE : Nat := 0x8
/-- src/csr.rs `MSTATUS_MPIE` (bit 7). -/
def MSTATUS_MPIE : Nat := 0x80
/-- src/csr.rs `MSTATUS_MPP` (bits 12:11). -/
def MSTATUS_MPP : Nat := 0x1800
/-- src/csr.rs `MSTATUS_SIE` (bit 1). -/
def MSTATUS_SIE : Nat := 0x2
/-- src/csr.rs `MSTATUS_SPIE` (bit 5). -/
def MSTATUS_SPIE : Nat := 0x20
/-- src/csr.rs `MSTATUS_SPP` (bit 8). -/
def MSTATUS_SPP : Nat := 0x100

/-- Modelled from the spec: the CSR addresses `MISA=0x301`, `MIE=0x304`,
`MIP=0x344` are used by `Cpu` but absent from the src snapshot of csr.rs. -/
def MISA : Nat := 0x301
/-- Modelled from the spec: `MIE = 0x304`. -/
def MIE : Nat := 0x304
/-- Modelled from the spec: `MIP = 0x344`. -/
def MIP : Nat := 0x344

/-- Modelled from the spec: `MIP` bit `MSIP = bit 3`. -/
def MIP_MSIP : Nat := 0x8
/-- Modelled from the spec: `MIP` bit `MTIP = bit 7`. -/
def MIP_MTIP : Nat := 0x80
/-- Modelled from the spec: `MIP` bit `MEIP = bit 11`. -/
def MIP_MEIP : Nat := 0x800
/-- Modelled from the spec: corresponding enable bit in `MIE` (bit 3). -/
def MIE_MSIE : Nat := 0x8
/-- Modelled from the spec: corresponding enable bit in `MIE` (bit 7). -/
def MIE_MTIE : Nat := 0x80
/-- Modelled from the spec: corresponding enable bit in `MIE` (bit 11). -/
def MIE_MEIE : Nat := 0x800

/-- Modelled from the spec: `INTERRUPT_BIT = 1 << 63` in `MCAUSE`. -/
def INTERRUPT_BIT : Nat := 0x8000000000000000

/-- Modelled from the spec: cause code 3 (breakpoint). -/
def BREAKPOINT : Nat := 3
/-- Modelled from the spec: cause code 8 (ECALL from U-mode). -/
def ECALL_FROM_U : Nat := 8
/-- Modelled from the spec: cause code 9 (ECALL from S-mode). -/
def ECALL_FROM_S : Nat := 9
/-- Modelled from the spec: cause code 11 (ECALL from M-mode). -/
def ECALL_FROM_M : Nat := 11
/-- Modelled from the spec: software-interrupt cause code 3. -/
def INTERRUPT_FROM_SOFTWARE : Nat := 3
/-- Modelled from the spec: timer-interrupt cause code 7. -/
def INTERRUPT_FROM_TIMER : Nat := 7
/-- Modelled from the spec: external-interrupt cause code 11. -/
def INTERRUPT_FROM_EXTERNAL : Nat := 11

end csr

/-- src/csr.rs `Csr`: a sparse map from CSR address to u64 value,
reads of never-written addresses return 0. Modelled as a total function. -/
def Csr : Type := Nat → Nat

/-- src/csr.rs `Csr::new`: the empty map (every read yields 0). -/
def Csr.new : Csr := fun _ => 0

/-- src/csr.rs `Csr::read`. -/
def Csr.read (c : Csr) (addr : Nat) : Nat := c addr

/-- src/csr.rs `Csr::write`. -/
def Csr.write (c : Csr) (addr value : Nat) : Csr :=
  fun a => if a = addr then value else c a

/-- src/devices/clint.rs `CLINT_BASE`. -/
def CLINT_BASE : Nat := 0x2000000
/-- src/devices/clint.rs `CLINT_SIZE`. -/
def CLINT_SIZE : Nat := 0x10000
/-- src/devices/clint.rs `MSIP_OFFSET`. -/
def MSIP_OFFSET : Nat := 0x0000
/-- src/devices/clint.rs `MTIMECMP_OFFSET`. -/
def MTIMECMP_OFFSET : Nat := 0x4000
/-- src/devices/clint.rs `MTIME_OFFSET`. -/
def MTIME_OFFSET : Nat := 0xBFF8

/-- src/devices/clint.rs `Clint`. -/
structure Clint where
  mtime : Nat
  mtimecmp : Nat
  msip : Bool
deriving DecidableEq

/-- src/devices/clint.rs `Clint::new`. -/
def Clint.new : Clint := { mtime := 0, mtimecmp := 0, msip := false }

/-- src/devices/clint.rs `Clint::read32`; unknown offsets are fatal. -/
def Clint.read32 (c : Clint) (offset : Nat) : Option Nat :=
  if offset = MSIP_OFFSET then some (if c.msip then 1 else 0) else none

/-- src/devices/clint.rs `Clint::read64`; unknown offsets are fatal. -/
def Clint.read64 (c : Clint) (offset : Nat) : Option Nat :=
  if offset = MTIMECMP_OFFSET then some c.mtimecmp
  else if offset = MTIME_OFFSET then some c.mtime
  else none

/-- src/devices/clint.rs `Clint::write32`; unknown offsets are fatal. -/
def Clint.write32 (c : Clint) (offset value : Nat) : Option Clint :=
  if offset = MSIP_OFFSET then some { c with msip := value > 0 } else none

/-- src/devices/clint.rs `Clint::write64`; unknown offsets are fatal. -/
def Clint.write64 (c : Clint) (offset value : Nat) : Option Clint :=
  if offset = MTIMECMP_OFFSET then some { c with mtimecmp := value }
  else if offset = MTIME_OFFSET then some { c with mtime := value }
  else none

/-- src/devices/clint.rs `Clint::tick`: `mtime += 1`. -/
def Clint.tick (c : Clint) : Clint := { c with mtime := c.mtime + 1 }

/-- Modelled from the spec: `Clint::check_timer_interrupt` is called by the
bus but absent from the src snapshot of clint.rs; the spec defines
`timer_pending = (mtime >= mtimecmp)`. -/
def Clint.check_timer_interrupt (c : Clint) : Bool := c.mtimecmp ≤ c.mtime

/-- Modelled from the spec: `Clint::check_software_interrupt` is called by
the bus but absent from the src snapshot; the spec defines
`software_pending = msip`. -/
def Clint.check_software_interrupt (c : Clint) : Bool := c.msip

/-- src/devices/uart.rs `UART_BASE`. -/
def UART_BASE : Nat := 0x10000000
/-- src/devices/uart.rs `UART_SIZE`. -/
def UART_SIZE : Nat := 8

/-- src/devices/uart.rs `LSR_DR`. -/
def LSR_DR : Nat := 0x1
/-- src/devices/uart.rs `LSR_THRE`. -/
def LSR_THRE : Nat := 0x20
/-- src/devices/uart.rs `LSR_TEMT`. -/
def LSR_TEMT : Nat := 0x40
/-- src/devices/uart.rs `IER_RX_ENABLE`. -/
def IER_RX_ENABLE : Nat := 0x1
/-- src/devices/uart.rs `IER_TX_ENABLE`. -/
def IER_TX_ENABLE : Nat := 0x2
/-- src/devices/uart.rs `IIR_NO_INTERRUPT`. -/
def IIR_NO_INTERRUPT : Nat := 0x01
/-- src/devices/uart.rs `IIR_RX_INTERRUPT`. -/
def IIR_RX_INTERRUPT : Nat := 0x04
/-- src/devices/uart.rs `IIR_TX_INTERRUPT`. -/
def IIR_TX_INTERRUPT : Nat := 0x02
/-- src/devices/uart.rs `IIR_FIFO_ENABLED`. -/
def IIR_FIFO_ENABLED : Nat := 0xC0

/-- src/devices/uart.rs `Uart`. The boxed `Terminal` (a `read -> Option
byte` / `write byte` pair) is modelled by `termInput` (bytes the host will
deliver, front first) and `termOutput` (bytes written out, oldest first). -/
structure Uart where
  rx_fifo : List Nat
  tx_fifo : List Nat
  tsr : Option Nat
  ier : Nat
  iir : Nat
  lcr : Nat
  lsr : Nat
  scr : Nat
  termInput : List Nat
  termOutput : List Nat
deriving DecidableEq

/-- src/devices/uart.rs `Uart::new` (with the given pending host input). -/
def Uart.new (input : List Nat) : Uart :=
  { rx_fifo := [], tx_fifo := [], tsr := none, ier := 0,
    iir := IIR_FIFO_ENABLED ||| IIR_NO_INTERRUPT, lcr := 0,
    lsr := LSR_TEMT ||| LSR_THRE, scr := 0,
    termInput := input, termOutput := [] }

/-- src/devices/uart.rs `Uart::update_lsr`. -/
def Uart.update_lsr (u : Uart) : Uart :=
  let lsr1 := if u.rx_fifo ≠ [] then u.lsr ||| LSR_DR else u.lsr &&& 0xFE
  let lsr2 :=
    if u.tx_fifo = [] then
      let l := lsr1 ||| LSR_THRE
      if u.tsr = none then l ||| LSR_TEMT else l &&& 0xBF
    else lsr1 &&& 0x9F
  { u with lsr := lsr2 }

/-- src/devices/uart.rs `Uart::update_iir`. -/
def Uart.update_iir (u : Uart) : Uart :=
  if u.ier &&& IER_RX_ENABLE ≠ 0 ∧ u.rx_fifo ≠ [] then
    { u with iir := IIR_FIFO_ENABLED ||| IIR_RX_INTERRUPT }
  else if u.ier &&& IER_TX_ENABLE ≠ 0 ∧ u.tx_fifo = [] then
    { u with iir := IIR_FIFO_ENABLED ||| IIR_TX_INTERRUPT }
  else { u with iir := IIR_FIFO_ENABLED ||| IIR_NO_INTERRUPT }

/-- src/devices/uart.rs `Uart::tx_fifo_push`: capped at 16 entries; a
successful push recomputes LSR. -/
def Uart.tx_fifo_push (u : Uart) (data : Nat) : Uart :=
  if u.tx_fifo.length < 16 then
    ({ u with tx_fifo := u.tx_fifo ++ [data] }).update_lsr
  else u

/-- src/devices/uart.rs `Uart::tx_fifo_pop`: pops the front (if any) and
recomputes LSR; returns the popped byte alongside the new state. -/
def Uart.tx_fifo_pop (u : Uart) : Option Nat × Uart :=
  (u.tx_fifo.head?, ({ u with tx_fifo := u.tx_fifo.tail }).update_lsr)

/-- src/devices/uart.rs `Uart::rx_fifo_push`: capped at 16 entries; a
successful push recomputes LSR and IIR. -/
def Uart.rx_fifo_push (u : Uart) (data : Nat) : Uart :=
  if u.rx_fifo.length < 16 then
    (({ u with rx_fifo := u.rx_fifo ++ [data] }).update_lsr).update_iir
  else u

/-- src/devices/uart.rs `Uart::rx_fifo_pop`. -/
def Uart.rx_fifo_pop (u : Uart) : Option Nat × Uart :=
  (u.rx_fifo.head?, ({ u with rx_fifo := u.rx_fifo.tail }).update_lsr)

/-- src/devices/uart.rs `Uart::transmit`: load TSR from the TX FIFO if it
is empty, then drain TSR (if occupied) to the terminal. -/
def Uart.transmit (u : Uart) : Uart :=
  let u1 :=
    if u.tsr = none then
      let p := u.tx_fifo_pop
      { p.2 with tsr := p.1 }
    else u
  match u1.tsr with
  | some data => { u1 with tsr := none, termOutput := u1.termOutput ++ [data] }
  | none => u1

/-- src/devices/uart.rs `Uart::read8`; offsets 4 and 6 are fatal. -/
def Uart.read8 (u : Uart) (offset : Nat) : Option (Nat × Uart) :=
  if offset = 0 then
    let p := u.rx_fifo_pop
    match p.1 with
    | some data => some (data, (p.2.update_lsr).update_iir)
    | none => some (0, p.2)
  else if offset = 1 then some (u.ier, u)
  else if offset = 2 then some (u.iir, u)
  else if offset = 3 then some (u.lcr, u)
  else if offset = 5 then some (u.update_lsr.lsr, u.update_lsr)
  else if offset = 7 then some (u.scr, u)
  else none

/-- src/devices/uart.rs `Uart::write8`; offsets 4, 5 and 6 are fatal. -/
def Uart.write8 (u : Uart) (offset value : Nat) : Option Uart :=
  if offset = 0 then
    some (((u.tx_fifo_push value).transmit).update_iir)
  else if offset = 1 then
    some (({ u with ier := (u.ier &&& 0xF0) ||| (value &&& 0x0F) }).update_iir)
  else if offset = 2 then
    let u1 := if value &&& 0x2 ≠ 0 then { u with rx_fifo := [] } else u
    some (if value &&& 0x4 ≠ 0 then { u1 with tx_fifo := [] } else u1)
  else if offset = 3 then some { u with lcr := value }
  else if offset = 7 then some { u with scr := value }
  else none

/-- src/devices/uart.rs `Uart::receive_input`: drain at most one byte from
the terminal into the RX FIFO. -/
def Uart.receive_input (u : Uart) : Uart :=
  match u.termInput with
  | data :: rest => ({ u with termInput := rest }).rx_fifo_push data
  | [] => u

/-- src/devices/uart.rs `Uart::push_input`. -/
def Uart.push_input (u : Uart) (data : Nat) : Uart := u.rx_fifo_push data

/-- src/devices/uart.rs `Uart::check_interrupt`: the line is asserted when
the no-interrupt bit of IIR is clear. -/
def Uart.check_interrupt (u : Uart) : Bool := u.iir &&& IIR_NO_INTERRUPT = 0

/-- src/devices/memory.rs `DRAM_BASE`. -/
def DRAM_BASE : Nat := 0x80000000
/-- src/devices/memory.rs `DRAM_SIZE`. -/
def DRAM_SIZE : Nat := 0x8000000

/-- src/devices/memory.rs `Memory`: a flat byte vector of `DRAM_SIZE`
bytes, modelled as a function from index to byte. Vector indexing out of
range (including the wrapped index produced by `addr - DRAM_BASE` when
`addr < DRAM_BASE`) is fatal. -/
def Memory : Type := Nat → Nat

/-- src/devices/memory.rs `Memory::new`: zero-filled. -/
def Memory.new : Memory := fun _ => 0

/-- src/devices/memory.rs `Memory::read8`. -/
def Memory.read8 (m : Memory) (addr : Nat) : Option Nat :=
  if DRAM_BASE ≤ addr ∧ addr - DRAM_BASE < DRAM_SIZE then
    some (m (addr - DRAM_BASE))
  else none

/-- src/devices/memory.rs `Memory::read16`: little-endian over two bytes. -/
def Memory.read16 (m : Memory) (addr : Nat) : Option Nat :=
  if DRAM_BASE ≤ addr ∧ addr - DRAM_BASE + 1 < DRAM_SIZE then
    some (m (addr - DRAM_BASE) + 0x100 * m (addr - DRAM_BASE + 1))
  else none

/-- src/devices/memory.rs `Memory::read32`: little-endian over four bytes. -/
def Memory.read32 (m : Memory) (addr : Nat) : Option Nat :=
  if DRAM_BASE ≤ addr ∧ addr - DRAM_BASE + 3 < DRAM_SIZE then
    some (m (addr - DRAM_BASE) + 0x100 * m (addr - DRAM_BASE + 1) +
      0x10000 * m (addr - DRAM_BASE + 2) + 0x1000000 * m (addr - DRAM_BASE + 3))
  else none

/-- Modelled from the spec: `Memory::read64` is called by the bus but
absent from the src snapshot of memory.rs; the spec prescribes a
little-endian 8-byte access like the narrower widths. -/
def Memory.read64 (m : Memory) (addr : Nat) : Option Nat :=
  if DRAM_BASE ≤ addr ∧ addr - DRAM_BASE + 7 < DRAM_SIZE then
    some (m (addr - DRAM_BASE) + 0x100 * m (addr - DRAM_BASE + 1) +
      0x10000 * m (addr - DRAM_BASE + 2) + 0x1000000 * m (addr - DRAM_BASE + 3) +
      0x100000000 * m (addr - DRAM_BASE + 4) +
      0x10000000000 * m (addr - DRAM_BASE + 5) +
      0x1000000000000 * m (addr - DRAM_BASE + 6) +
      0x100000000000000 * m (addr - DRAM_BASE + 7))
  else none

/-- Store one byte at a raw index. -/
def Memory.setByte (m : Memory) (index value : Nat) : Memory :=
  fun i => if i = index then value else m i

/-- src/devices/memory.rs `Memory::write8`. -/
def Memory.write8 (m : Memory) (addr value : Nat) : Option Memory :=
  if DRAM_BASE ≤ addr ∧ addr - DRAM_BASE < DRAM_SIZE then
    some (m.setByte (addr - DRAM_BASE) (value % 0x100))
  else none

/-- src/devices/memory.rs `Memory::write16`: stores `to_le_bytes`. -/
def Memory.write16 (m : Memory) (addr value : Nat) : Option Memory :=
  if DRAM_BASE ≤ addr ∧ addr - DRAM_BASE + 1 < DRAM_SIZE then
    some (((m.setByte (addr - DRAM_BASE) (value % 0x100))).setByte
      (addr - DRAM_BASE + 1) (value / 0x100 % 0x100))
  else none

/-- src/devices/memory.rs `Memory::write32`: stores `to_le_bytes`. -/
def Memory.write32 (m : Memory) (addr value : Nat) : Option Memory :=
  if DRAM_BASE ≤ addr ∧ addr - DRAM_BASE + 3 < DRAM_SIZE then
    some ((((m.setByte (addr - DRAM_BASE) (value % 0x100)).setByte
      (addr - DRAM_BASE + 1) (value / 0x100 % 0x100)).setByte
      (addr - DRAM_BASE + 2) (value / 0x10000 % 0x100)).setByte
      (addr - DRAM_BASE + 3) (value / 0x1000000 % 0x100))
  else none

/-- Modelled from the spec: `Memory::write64` is called by the bus but
absent from the src snapshot; little-endian 8-byte store. -/
def Memory.write64 (m : Memory) (addr value : Nat) : Option Memory :=
  if DRAM_BASE ≤ addr ∧ addr - DRAM_BASE + 7 < DRAM_SIZE then
    some ((((((((m.setByte (addr - DRAM_BASE) (value % 0x100)).setByte
      (addr - DRAM_BASE + 1) (value / 0x100 % 0x100)).setByte
      (addr - DRAM_BASE + 2) (value / 0x10000 % 0x100)).setByte
      (addr - DRAM_BASE + 3) (value / 0x1000000 % 0x100)).setByte
      (addr - DRAM_BASE + 4) (value / 0x100000000 % 0x100)).setByte
      (addr - DRAM_BASE + 5) (value / 0x10000000000 % 0x100)).setByte
      (addr - DRAM_BASE + 6) (value / 0x1000000000000 % 0x100)).setByte
      (addr - DRAM_BASE + 7) (value / 0x100000000000000 % 0x100))
  else none

/-- src/bus.rs `Bus`. -/
structure Bus where
  clint : Clint
  memory : Memory
  uart : Uart
  reservations : Nat → Option Nat

/-- src/bus.rs `Bus::new` (with the given pending host input for the
UART's terminal). -/
def Bus.new (input : List Nat) : Bus :=
  { clint := Clint.new, memory := Memory.new, uart := Uart.new input,
    reservations := fun _ => none }

/-- src/bus.rs `Bus::read8`. -/
def Bus.read8 (b : Bus) (addr : Nat) : Option (Nat × Bus) :=
  if UART_BASE ≤ addr ∧ addr < UART_BASE + UART_SIZE then
    (b.uart.read8 (addr - UART_BASE)).map (fun p => (p.1, { b with uart := p.2 }))
  else if DRAM_BASE ≤ addr then
    (b.memory.read8 addr).map (fun v => (v, b))
  else none

/-- src/bus.rs `Bus::read16`. -/
def Bus.read16 (b : Bus) (addr : Nat) : Option (Nat × Bus) :=
  if UART_BASE ≤ addr ∧ addr < UART_BASE + UART_SIZE then
    (b.uart.read8 (addr - UART_BASE)).map (fun p => (p.1, { b with uart := p.2 }))
  else if DRAM_BASE ≤ addr then
    (b.memory.read16 addr).map (fun v => (v, b))
  else none

/-- src/bus.rs `Bus::read32`. -/
def Bus.read32 (b : Bus) (addr : Nat) : Option (Nat × Bus) :=
  if CLINT_BASE ≤ addr ∧ addr < CLINT_BASE + CLINT_SIZE then
    (b.clint.read32 (addr - CLINT_BASE)).map (fun v => (v, b))
  else if UART_BASE ≤ addr ∧ addr < UART_BASE + UART_SIZE then
    (b.uart.read8 (addr - UART_BASE)).map (fun p => (p.1, { b with uart := p.2 }))
  else if DRAM_BASE ≤ addr then
    (b.memory.read32 addr).map (fun v => (v, b))
  else none

/-- src/bus.rs `Bus::read64`. -/
def Bus.read64 (b : Bus) (addr : Nat) : Option (Nat × Bus) :=
  if CLINT_BASE ≤ addr ∧ addr < CLINT_BASE + CLINT_SIZE then
    (b.clint.read64 (addr - CLINT_BASE)).map (fun v => (v, b))
  else if UART_BASE ≤ addr ∧ addr < UART_BASE + UART_SIZE then
    (b.uart.read8 (addr - UART_BASE)).map (fun p => (p.1, { b with uart := p.2 }))
  else if DRAM_BASE ≤ addr then
    (b.memory.read64 addr).map (fun v => (v, b))
  else none

/-- src/bus.rs `Bus::invalidate_reservations`: drop every entry whose
reserved address equals the written address. -/
def Bus.invalidate_reservations (b : Bus) (addr : Nat) : Bus :=
  { b with reservations := fun key =>
      match b.reservations key with
      | some v => if v = addr then none else some v
      | none => none }

/-- src/bus.rs `Bus::write8`. -/
def Bus.write8 (b : Bus) (addr value : Nat) : Option Bus :=
  let b := b.invalidate_reservations addr
  if UART_BASE ≤ addr ∧ addr < UART_BASE + UART_SIZE then
    (b.uart.write8 (addr - UART_BASE) value).map (fun u => { b with uart := u })
  else if DRAM_BASE ≤ addr then
    (b.memory.write8 addr value).map (fun m => { b with memory := m })
  else none

/-- src/bus.rs `Bus::write16`: in the UART range, writes the low 8 bits
(`value as u8`) at the addressed offset. -/
def Bus.write16 (b : Bus) (addr value : Nat) : Option Bus :=
  let b := b.invalidate_reservations addr
  if UART_BASE ≤ addr ∧ addr < UART_BASE + UART_SIZE then
    (b.uart.write8 (addr - UART_BASE) (value % 0x100)).map
      (fun u => { b with uart := u })
  else if DRAM_BASE ≤ addr then
    (b.memory.write16 addr value).map (fun m => { b with memory := m })
  else none

/-- src/bus.rs `Bus::write32`. -/
def Bus.write32 (b : Bus) (addr value : Nat) : Option Bus :=
  let b := b.invalidate_reservations addr
  if CLINT_BASE ≤ addr ∧ addr < CLINT_BASE + CLINT_SIZE then
    (b.clint.write32 (addr - CLINT_BASE) value).map (fun c => { b with clint := c })
  else if UART_BASE ≤ addr ∧ addr < UART_BASE + UART_SIZE then
    (b.uart.write8 (addr - UART_BASE) (value % 0x100)).map
      (fun u => { b with uart := u })
  else if DRAM_BASE ≤ addr then
    (b.memory.write32 addr value).map (fun m => { b with memory := m })
  else none

/-- src/bus.rs `Bus::write64`. -/
def Bus.write64 (b : Bus) (addr value : Nat) : Option Bus :=
  let b := b.invalidate_reservations addr
  if CLINT_BASE ≤ addr ∧ addr < CLINT_BASE + CLINT_SIZE then
    (b.clint.write64 (addr - CLINT_BASE) value).map (fun c => { b with clint := c })
  else if UART_BASE ≤ addr ∧ addr < UART_BASE + UART_SIZE then
    (b.uart.write8 (addr - UART_BASE) (value % 0x100)).map
      (fun u => { b with uart := u })
  else if DRAM_BASE ≤ addr then
    (b.memory.write64 addr value).map (fun m => { b with memory := m })
  else none

/-- src/bus.rs `Bus::reserve`. -/
def Bus.reserve (b : Bus) (hart_id addr : Nat) : Bus :=
  { b with reservations := fun k =>
      if k = hart_id then some addr else b.reservations k }

/-- src/bus.rs `Bus::check_reservation`. -/
def Bus.check_reservation (b : Bus) (hart_id addr : Nat) : Bool :=
  match b.reservations hart_id with
  | some v => v = addr
  | none => false

/-- src/bus.rs `Bus::clear_reservation`. -/
def Bus.clear_reservation (b : Bus) (hart_id : Nat) : Bus :=
  { b with reservations := fun k =>
      if k = hart_id then none else b.reservations k }

/-- src/bus.rs `Bus::tick`. -/
def Bus.tick (b : Bus) : Bus := { b with clint := b.clint.tick }

/-- src/bus.rs `Bus::check_timer_interrupt`. -/
def Bus.check_timer_interrupt (b : Bus) : Bool := b.clint.check_timer_interrupt

/-- src/bus.rs `Bus::check_software_interrupt`. -/
def Bus.check_software_interrupt (b : Bus) : Bool :=
  b.clint.check_software_interrupt

/-- src/bus.rs `Bus::check_uart_interrupt`. -/
def Bus.check_uart_interrupt (b : Bus) : Bool := b.uart.check_interrupt

/-- src/bus.rs `Bus::push_uart_input`. -/
def Bus.push_uart_input (b : Bus) (data : Nat) : Bus :=
  { b with uart := b.uart.push_input data }

/-- src/bus.rs `Bus::receive_uart_input`. -/
def Bus.receive_uart_input (b : Bus) : Bus :=
  { b with uart := b.uart.receive_input }

/-- src/cpu/mod.rs `PrivilegeMode`. -/
inductive PrivilegeMode where
  | User
  | Supervisor
  | Machine
deriving DecidableEq

/-- The numeric discriminant of `PrivilegeMode` (`self.mode as u64`). -/
def PrivilegeMode.code : PrivilegeMode → Nat
  | .User => 0
  | .Supervisor => 1
  | .Machine => 3

/-- src/cpu/mod.rs `Cpu`. -/
structure Cpu where
  regs : Nat → Nat
  csr : Csr
  pc : Nat
  mode : PrivilegeMode
  bus : Bus
  halted : Bool

/-- src/cpu/mod.rs `Cpu::new` (with the given pending host input). -/
def Cpu.new (input : List Nat) : Cpu :=
  { regs := fun _ => 0,
    csr := (Csr.new.write csr.MISA 0x8000000000140100).write csr.MHARTID 0,
    pc := DRAM_BASE, mode := PrivilegeMode.Machine,
    bus := Bus.new input, halted := false }

/-- src/cpu/mod.rs `Cpu::read_reg`. -/
def Cpu.read_reg (c : Cpu) (index : Nat) : Nat := c.regs index

/-- src/cpu/mod.rs `Cpu::write_reg`: writes to x0 are discarded. -/
def Cpu.write_reg (c : Cpu) (index value : Nat) : Cpu :=
  if index ≠ 0 then
    { c with regs := fun i => if i = index then value else c.regs i }
  else c

/-- src/cpu/mod.rs `Cpu::fetch`: a 32-bit read at PC through the bus. -/
def Cpu.fetch (c : Cpu) : Option (Nat × Cpu) :=
  (c.bus.read32 c.pc).map (fun p => (p.1, { c with bus := p.2 }))

/-- src/cpu/mod.rs `Cpu::trap`: record the cause, stack MIE/mode into
MSTATUS, enter Machine mode and redirect PC through MTVEC. -/
def Cpu.trap (c : Cpu) (cause tval : Nat) : Cpu :=
  let is_interrupt := 0 < cause &&& csr.INTERRUPT_BIT
  let cs3 := ((c.csr.write csr.MEPC c.pc).write csr.MCAUSE cause).write
    csr.MTVAL tval
  let mstatus := cs3.read csr.MSTATUS
  let mstatus :=
    if mstatus &&& csr.MSTATUS_MIE ≠ 0 then mstatus ||| csr.MSTATUS_MPIE
    else mstatus &&& 0xFFFFFFFFFFFFFF7F
  let mstatus := mstatus &&& 0xFFFFFFFFFFFFFFF7
  let mstatus := mstatus &&& 0xFFFFFFFFFFFFE7FF
  let mstatus := mstatus ||| (c.mode.code <<< 11)
  let cs4 := cs3.write csr.MSTATUS mstatus
  let mtvec := cs4.read csr.MTVEC
  let mode_bits := mtvec &&& 0x3
  let base := mtvec &&& 0xFFFFFFFFFFFFFFFC
  let newPc :=
    if mode_bits = 0 then base
    else if is_interrupt then base + 4 * (cause &&& 0x3FF) else base
  { c with csr := cs4, mode := PrivilegeMode.Machine, pc := newPc }

/-- src/cpu/mod.rs `Cpu::check_pending_interrupts`, lines 897-916: refresh
the three MIP bits from the bus device lines. -/
def Cpu.sync_mip (c : Cpu) : Cpu :=
  let mip := c.csr.read csr.MIP
  let v1 := if c.bus.check_timer_interrupt then mip ||| csr.MIP_MTIP
    else mip &&& 0xFFFFFFFFFFFFFF7F
  let c1 := { c with csr := c.csr.write csr.MIP v1 }
  let mip := c1.csr.read csr.MIP
  let v2 := if c1.bus.check_software_interrupt then mip ||| csr.MIP_MSIP
    else mip &&& 0xFFFFFFFFFFFFFFF7
  let c2 := { c1 with csr := c1.csr.write csr.MIP v2 }
  let mip := c2.csr.read csr.MIP
  let v3 := if c2.bus.check_uart_interrupt then mip ||| csr.MIP_MEIP
    else mip &&& 0xFFFFFFFFFFFFF7FF
  { c2 with csr := c2.csr.write csr.MIP v3 }

/-- src/cpu/mod.rs `Cpu::check_pending_interrupts`: after the MIP refresh,
gate on `MSTATUS.MIE`, then test software, timer, external in that order. -/
def Cpu.check_pending_interrupts (c : Cpu) : Bool × Cpu :=
  let c := c.sync_mip
  if c.csr.read csr.MSTATUS &&& csr.MSTATUS_MIE = 0 then (false, c)
  else
    let mip := c.csr.read csr.MIP
    let mie := c.csr.read csr.MIE
    if mip &&& csr.MIP_MSIP ≠ 0 ∧ mie &&& csr.MIE_MSIE ≠ 0 then
      (true, c.trap (csr.INTERRUPT_BIT ||| csr.INTERRUPT_FROM_SOFTWARE) 0)
    else if mip &&& csr.MIP_MTIP ≠ 0 ∧ mie &&& csr.MIE_MTIE ≠ 0 then
      (true, c.trap (csr.INTERRUPT_BIT ||| csr.INTERRUPT_FROM_TIMER) 0)
    else if mip &&& csr.MIP_MEIP ≠ 0 ∧ mie &&& csr.MIE_MEIE ≠ 0 then
      (true, c.trap (csr.INTERRUPT_BIT ||| csr.INTERRUPT_FROM_EXTERNAL) 0)
    else (false, c)

/-- i64 `wrapping_div` on u64 bit patterns (nonzero divisor at call sites;
`i64::MIN / -1` wraps through the re-encoding). -/
def wdiv64 (a b : Nat) : Nat := ofI64 (Int.tdiv (toI64 a) (toI64 b))

/-- i64 `wrapping_rem` on u64 bit patterns (nonzero divisor at call sites). -/
def wrem64 (a b : Nat) : Nat := ofI64 (Int.tmod (toI64 a) (toI64 b))

/-- i32 `wrapping_div` of the low words, result sign-extended (`as u64`);
fatal (division panic) when the low 32 divisor bits are zero. -/
def wdiv32 (a b : Nat) : Option Nat :=
  if b % M32 = 0 then none
  else some (sext32 (ofI32 (Int.tdiv (toI32 a) (toI32 b))))

/-- i32 `wrapping_rem` of the low words, result sign-extended; fatal when
the low 32 divisor bits are zero. -/
def wrem32 (a b : Nat) : Option Nat :=
  if b % M32 = 0 then none
  else some (sext32 (ofI32 (Int.tmod (toI32 a) (toI32 b))))

/-- u32 `wrapping_div` of the low words, result `as i32 as i64` (sign
extension of the 32-bit quotient); fatal when the low divisor is zero. -/
def wdivu32 (a b : Nat) : Option Nat :=
  if b % M32 = 0 then none else some (sext32 (a % M32 / (b % M32)))

/-- u32 `wrapping_rem` of the low words, result sign-extended; fatal when
the low divisor is zero. -/
def wremu32 (a b : Nat) : Option Nat :=
  if b % M32 = 0 then none else some (sext32 (a % M32 % (b % M32)))

/-- src/cpu/mod.rs `Cpu::execute_op_imm`. -/
def Cpu.execute_op_imm (c : Cpu) (inst : Nat) : Option Cpu :=
  let funct3 := decoder.funct3 inst
  let rd := decoder.rd inst
  let rs1_val := c.read_reg (decoder.rs1 inst)
  let imm := decoder.imm_i inst
  if funct3 = 0x0 then some (c.write_reg rd (wadd64 rs1_val imm))
  else if funct3 = 0x1 then
    some (c.write_reg rd ((rs1_val <<< (imm &&& 0x3F)) % M64))
  else if funct3 = 0x2 then
    some (c.write_reg rd (if toI64 rs1_val < toI64 imm then 1 else 0))
  else if funct3 = 0x3 then
    some (c.write_reg rd (if rs1_val < imm then 1 else 0))
  else if funct3 = 0x4 then some (c.write_reg rd ((rs1_val ^^^ imm) % M64))
  else if funct3 = 0x5 then
    let f7 := (imm >>> 5) &&& 0x7F
    let shamt := imm &&& 0x3F
    if f7 = 0x00 then some (c.write_reg rd (rs1_val >>> shamt))
    else if f7 = 0x20 then
      some (c.write_reg rd (ofI64 (Int.fdiv (toI64 rs1_val) (2 ^ shamt))))
    else none
  else if funct3 = 0x6 then some (c.write_reg rd ((rs1_val ||| imm) % M64))
  else if funct3 = 0x7 then some (c.write_reg rd (rs1_val &&& imm))
  else none

/-- src/cpu/mod.rs `Cpu::execute_op_imm_32` (u32 shifts use the masked
shift amount of Rust release builds). -/
def Cpu.execute_op_imm_32 (c : Cpu) (inst : Nat) : Option Cpu :=
  let funct3 := decoder.funct3 inst
  let rd := decoder.rd inst
  let rs1_val := c.read_reg (decoder.rs1 inst)
  let imm := decoder.imm_i inst
  if funct3 = 0x0 then
    some (c.write_reg rd (sext32 (rs1_val % M32 + imm % M32)))
  else if funct3 = 0x1 then
    let shamt := imm &&& 0x3F
    some (c.write_reg rd (sext32 (rs1_val <<< (shamt &&& 0x1F))))
  else if funct3 = 0x5 then
    let f7 := (imm >>> 5) &&& 0x7F
    let shamt := imm &&& 0x3F
    if f7 = 0x00 then
      some (c.write_reg rd ((rs1_val % M32) >>> (shamt &&& 0x1F)))
    else if f7 = 0x20 then
      some (c.write_reg rd
        (ofI64 (Int.fdiv (toI32 rs1_val) (2 ^ (shamt &&& 0x1F)))))
    else none
  else none

/-- src/cpu/mod.rs `Cpu::execute_op` (including the M extension at
`funct7 = 0x01`). -/
def Cpu.execute_op (c : Cpu) (inst : Nat) : Option Cpu :=
  let funct3 := decoder.funct3 inst
  let funct7 := decoder.funct7 inst
  let rd := decoder.rd inst
  let rs1_val := c.read_reg (decoder.rs1 inst)
  let rs2_val := c.read_reg (decoder.rs2 inst)
  if funct3 = 0x0 ∧ funct7 = 0x0 then
    some (c.write_reg rd (wadd64 rs1_val rs2_val))
  else if funct3 = 0x0 ∧ funct7 = 0x01 then
    some (c.write_reg rd (wmul64 rs1_val rs2_val))
  else if funct3 = 0x0 ∧ funct7 = 0x20 then
    some (c.write_reg rd (wsub64 rs1_val rs2_val))
  else if funct3 = 0x1 ∧ funct7 = 0x0 then
    some (c.write_reg rd ((rs1_val <<< (rs2_val &&& 0x3F)) % M64))
  else if funct3 = 0x1 ∧ funct7 = 0x01 then
    some (c.write_reg rd (ofI64 (Int.fdiv (toI64 rs1_val * toI64 rs2_val) (M64 : Int))))
  else if funct3 = 0x2 ∧ funct7 = 0x0 then
    some (c.write_reg rd (if toI64 rs1_val < toI64 rs2_val then 1 else 0))
  else if funct3 = 0x2 ∧ funct7 = 0x01 then
    some (c.write_reg rd
      (ofI64 (Int.fdiv (toI64 rs1_val * ((rs2_val % M64 : Nat) : Int)) (M64 : Int))))
  else if funct3 = 0x3 ∧ funct7 = 0x0 then
    some (c.write_reg rd (if rs1_val < rs2_val then 1 else 0))
  else if funct3 = 0x3 ∧ funct7 = 0x01 then
    some (c.write_reg rd (rs1_val % M64 * (rs2_val % M64) / M64))
  else if funct3 = 0x4 ∧ funct7 = 0x0 then
    some (c.write_reg rd ((rs1_val ^^^ rs2_val) % M64))
  else if funct3 = 0x4 ∧ funct7 = 0x01 then
    some (c.write_reg rd
      (if rs2_val = 0 then 0xFFFFFFFFFFFFFFFF else wdiv64 rs1_val rs2_val))
  else if funct3 = 0x5 ∧ funct7 = 0x0 then
    some (c.write_reg rd (rs1_val >>> (rs2_val &&& 0x3F)))
  else if funct3 = 0x5 ∧ funct7 = 0x01 then
    some (c.write_reg rd
      (if rs2_val = 0 then 0xFFFFFFFFFFFFFFFF else rs1_val / rs2_val))
  else if funct3 = 0x5 ∧ funct7 = 0x20 then
    some (c.write_reg rd
      (ofI64 (Int.fdiv (toI64 rs1_val) (2 ^ (rs2_val &&& 0x3F)))))
  else if funct3 = 0x6 ∧ funct7 = 0x0 then
    some (c.write_reg rd ((rs1_val ||| rs2_val) % M64))
  else if funct3 = 0x6 ∧ funct7 = 0x01 then
    some (c.write_reg rd (if rs2_val = 0 then rs1_val else wrem64 rs1_val rs2_val))
  else if funct3 = 0x7 ∧ funct7 = 0x0 then
    some (c.write_reg rd (rs1_val &&& rs2_val))
  else if funct3 = 0x7 ∧ funct7 = 0x01 then
    some (c.write_reg rd (if rs2_val = 0 then rs1_val else rs1_val % rs2_val))
  else none

/-- src/cpu/mod.rs `Cpu::execute_op_32`. -/
def Cpu.execute_op_32 (c : Cpu) (inst : Nat) : Option Cpu :=
  let funct3 := decoder.funct3 inst
  let funct7 := decoder.funct7 inst
  let rd := decoder.rd inst
  let rs1_val := c.read_reg (decoder.rs1 inst)
  let rs2_val := c.read_reg (decoder.rs2 inst)
  if funct3 = 0x0 ∧ funct7 = 0x0 then
    some (c.write_reg rd (sext32 (rs1_val % M32 + rs2_val % M32)))
  else if funct3 = 0x0 ∧ funct7 = 0x01 then
    some (c.write_reg rd (sext32 (rs1_val % M32 * (rs2_val % M32))))
  else if funct3 = 0x0 ∧ funct7 = 0x20 then
    some (c.write_reg rd (sext32 (rs1_val % M32 + (M32 - rs2_val % M32))))
  else if funct3 = 0x1 ∧ funct7 = 0x0 then
    some (c.write_reg rd (sext32 (rs1_val <<< (rs2_val &&& 0x3F &&& 0x1F))))
  else if funct3 = 0x4 ∧ funct7 = 0x01 then
    if rs2_val = 0 then some (c.write_reg rd 0xFFFFFFFFFFFFFFFF)
    else (wdiv32 rs1_val rs2_val).map (fun v => c.write_reg rd v)
  else if funct3 = 0x5 ∧ funct7 = 0x0 then
    some (c.write_reg rd ((rs1_val % M32) >>> (rs2_val &&& 0x3F &&& 0x1F)))
  else if funct3 = 0x5 ∧ funct7 = 0x01 then
    if rs2_val = 0 then some (c.write_reg rd 0xFFFFFFFFFFFFFFFF)
    else (wdivu32 rs1_val rs2_val).map (fun v => c.write_reg rd v)
  else if funct3 = 0x5 ∧ funct7 = 0x20 then
    some (c.write_reg rd
      (ofI64 (Int.fdiv (toI32 rs1_val) (2 ^ (rs2_val &&& 0x3F &&& 0x1F)))))
  else if funct3 = 0x6 ∧ funct7 = 0x01 then
    if rs2_val = 0 then some (c.write_reg rd (sext32 rs1_val))
    else (wrem32 rs1_val rs2_val).map (fun v => c.write_reg rd v)
  else if funct3 = 0x7 ∧ funct7 = 0x01 then
    if rs2_val = 0 then some (c.write_reg rd (sext32 rs1_val))
    else (wremu32 rs1_val rs2_val).map (fun v => c.write_reg rd v)
  else none

/-- src/cpu/mod.rs `Cpu::execute_load`. -/
def Cpu.execute_load (c : Cpu) (inst : Nat) : Option Cpu :=
  let funct3 := decoder.funct3 inst
  let rd := decoder.rd inst
  let rs1_val := c.read_reg (decoder.rs1 inst)
  let addr := wadd64 rs1_val (decoder.imm_i inst)
  if funct3 = 0x0 then
    (c.bus.read8 addr).map (fun p =>
      ({ c with bus := p.2 }).write_reg rd (sextW 8 p.1))
  else if funct3 = 0x1 then
    (c.bus.read16 addr).map (fun p =>
      ({ c with bus := p.2 }).write_reg rd (sextW 16 p.1))
  else if funct3 = 0x2 then
    (c.bus.read32 addr).map (fun p =>
      ({ c with bus := p.2 }).write_reg rd (sext32 p.1))
  else if funct3 = 0x3 then
    (c.bus.read64 addr).map (fun p => ({ c with bus := p.2 }).write_reg rd p.1)
  else if funct3 = 0x4 then
    (c.bus.read8 addr).map (fun p => ({ c with bus := p.2 }).write_reg rd p.1)
  else if funct3 = 0x5 then
    (c.bus.read16 addr).map (fun p => ({ c with bus := p.2 }).write_reg rd p.1)
  else if funct3 = 0x6 then
    (c.bus.read32 addr).map (fun p => ({ c with bus := p.2 }).write_reg rd p.1)
  else none

/-- src/cpu/mod.rs `Cpu::execute_store`. -/
def Cpu.execute_store (c : Cpu) (inst : Nat) : Option Cpu :=
  let funct3 := decoder.funct3 inst
  let rs1_val := c.read_reg (decoder.rs1 inst)
  let rs2_val := c.read_reg (decoder.rs2 inst)
  let addr := wadd64 rs1_val (decoder.imm_s inst)
  if funct3 = 0x0 then
    (c.bus.write8 addr (rs2_val % 0x100)).map (fun b => { c with bus := b })
  else if funct3 = 0x1 then
    (c.bus.write16 addr (rs2_val % 0x10000)).map (fun b => { c with bus := b })
  else if funct3 = 0x2 then
    (c.bus.write32 addr (rs2_val % M32)).map (fun b => { c with bus := b })
  else if funct3 = 0x3 then
    (c.bus.write64 addr (rs2_val % M64)).map (fun b => { c with bus := b })
  else none

/-- src/cpu/mod.rs `Cpu::execute_branch`: returns whether the branch was
taken (in which case PC has been set) together with the new state. -/
def Cpu.execute_branch (c : Cpu) (inst : Nat) : Option (Bool × Cpu) :=
  let funct3 := decoder.funct3 inst
  let rs1_val := c.read_reg (decoder.rs1 inst)
  let rs2_val := c.read_reg (decoder.rs2 inst)
  let imm := decoder.imm_b inst
  let taken :=
    if funct3 = 0x0 then some (rs1_val == rs2_val)
    else if funct3 = 0x1 then some (rs1_val != rs2_val)
    else if funct3 = 0x4 then some (decide (toI64 rs1_val < toI64 rs2_val))
    else if funct3 = 0x5 then some (decide (toI64 rs2_val ≤ toI64 rs1_val))
    else if funct3 = 0x6 then some (decide (rs1_val < rs2_val))
    else if funct3 = 0x7 then some (decide (rs2_val ≤ rs1_val))
    else none
  taken.map (fun t =>
    if t then (true, { c with pc := wadd64 c.pc imm }) else (false, c))

/-- src/cpu/mod.rs `Cpu::execute_jal`. -/
def Cpu.execute_jal (c : Cpu) (inst : Nat) : Cpu :=
  let c1 := c.write_reg (decoder.rd inst) (c.pc + 4)
  { c1 with pc := wadd64 c1.pc (decoder.imm_j inst) }

/-- src/cpu/mod.rs `Cpu::execute_jalr`: the computed target has its least
significant bit cleared. -/
def Cpu.execute_jalr (c : Cpu) (inst : Nat) : Cpu :=
  let rs1_val := c.read_reg (decoder.rs1 inst)
  let c1 := c.write_reg (decoder.rd inst) (c.pc + 4)
  { c1 with pc := wadd64 rs1_val (decoder.imm_i inst) &&& 0xFFFFFFFFFFFFFFFE }

/-- src/cpu/mod.rs `Cpu::execute_lui`. -/
def Cpu.execute_lui (c : Cpu) (inst : Nat) : Cpu :=
  c.write_reg (decoder.rd inst) (decoder.imm_u inst)

/-- src/cpu/mod.rs `Cpu::execute_auipc`. -/
def Cpu.execute_auipc (c : Cpu) (inst : Nat) : Cpu :=
  c.write_reg (decoder.rd inst) (wadd64 c.pc (decoder.imm_u inst))

/-- src/cpu/mod.rs `Cpu::execute_system`: PRIV instructions (ECALL,
EBREAK, MRET, SRET) and the six CSR ops. Returns whether PC was set
directly. An MPP encoding other than 0, 1, 3 during MRET is fatal. -/
def Cpu.execute_system (c : Cpu) (inst : Nat) : Option (Bool × Cpu) :=
  let funct3 := decoder.funct3 inst
  let rd := decoder.rd inst
  let rs1 := decoder.rs1 inst
  let rs1_val := c.read_reg rs1
  let csr_addr := decoder.csr_addr inst
  if funct3 = 0x0 then
    let funct7 := decoder.funct7 inst
    let rs2 := decoder.rs2 inst
    if funct7 = 0x00 ∧ rs2 = 0x00 then
      some (true, match c.mode with
        | PrivilegeMode.Machine => c.trap csr.ECALL_FROM_M 0
        | PrivilegeMode.Supervisor => c.trap csr.ECALL_FROM_S 0
        | PrivilegeMode.User => c.trap csr.ECALL_FROM_U 0)
    else if funct7 = 0x00 ∧ rs2 = 0x01 then
      some (true, c.trap csr.BREAKPOINT 0)
    else if funct7 = 0x18 ∧ rs2 = 0x02 then
      let newPc := c.csr.read csr.MEPC
      let mstatus := c.csr.read csr.MSTATUS
      let mstatus :=
        if mstatus &&& csr.MSTATUS_MPIE ≠ 0 then mstatus ||| csr.MSTATUS_MIE
        else mstatus &&& 0xFFFFFFFFFFFFFFF7
      let mstatus := mstatus ||| csr.MSTATUS_MPIE
      let mpp := (mstatus &&& csr.MSTATUS_MPP) >>> 11
      let newMode :=
        if mpp = 0 then some PrivilegeMode.User
        else if mpp = 1 then some PrivilegeMode.Supervisor
        else if mpp = 3 then some PrivilegeMode.Machine
        else none
      let cs := c.csr.write csr.MSTATUS (mstatus &&& 0xFFFFFFFFFFFFE7FF)
      newMode.map (fun m =>
        (true, { c with pc := newPc, mode := m, csr := cs }))
    else if funct7 = 0x08 ∧ rs2 = 0x02 then
      let newPc := c.csr.read csr.SEPC
      let sstatus := c.csr.read csr.SSTATUS
      let sstatus :=
        if sstatus &&& csr.MSTATUS_SPIE ≠ 0 then sstatus ||| csr.MSTATUS_SIE
        else sstatus &&& 0xFFFFFFFFFFFFFFFD
      let sstatus := sstatus ||| csr.MSTATUS_SPIE
      let newMode :=
        if sstatus &&& csr.MSTATUS_SPP ≠ 0 then PrivilegeMode.Supervisor
        else PrivilegeMode.User
      let cs := c.csr.write csr.SSTATUS (sstatus &&& 0xFFFFFFFFFFFFFEFF)
      some (true, { c with pc := newPc, mode := newMode, csr := cs })
    else none
  else if funct3 = 0x1 then
    let old := c.csr.read csr_addr
    some (false, ({ c with csr := c.csr.write csr_addr rs1_val }).write_reg rd old)
  else if funct3 = 0x2 then
    let old := c.csr.read csr_addr
    let c1 := if rs1_val ≠ 0x0 then
      { c with csr := c.csr.write csr_addr (old ||| rs1_val) } else c
    some (false, c1.write_reg rd old)
  else if funct3 = 0x3 then
    let old := c.csr.read csr_addr
    let c1 := if rs1_val ≠ 0x0 then
      { c with csr := c.csr.write csr_addr (old &&& (0xFFFFFFFFFFFFFFFF ^^^ rs1_val % M64)) }
      else c
    some (false, c1.write_reg rd old)
  else if funct3 = 0x5 then
    let old := c.csr.read csr_addr
    some (false, ({ c with csr := c.csr.write csr_addr rs1 }).write_reg rd old)
  else if funct3 = 0x6 then
    let old := c.csr.read csr_addr
    let c1 := if rs1 ≠ 0x0 then
      { c with csr := c.csr.write csr_addr (old ||| rs1) } else c
    some (false, c1.write_reg rd old)
  else if funct3 = 0x7 then
    let old := c.csr.read csr_addr
    let c1 := if rs1 ≠ 0x0 then
      { c with csr := c.csr.write csr_addr (old &&& (0xFFFFFFFFFFFFFFFF ^^^ rs1)) }
      else c
    some (false, c1.write_reg rd old)
  else none

/-- src/cpu/mod.rs `Cpu::step`: drain host input, tick the CLINT, poll
interrupts (possibly trapping and returning), then fetch, decode and
execute one instruction; PC advances by 4 unless set directly. -/
def Cpu.step (c : Cpu) : Option Cpu :=
  let c := { c with bus := c.bus.receive_uart_input }
  let c := { c with bus := c.bus.tick }
  match c.check_pending_interrupts with
  | (true, c2) => some c2
  | (false, c2) =>
    match c2.fetch with
    | none => none
    | some (inst, c3) =>
      let op := decoder.opcode inst
      let adv : Cpu → Cpu := fun c4 => { c4 with pc := c4.pc + 4 }
      if op = 0x13 then (c3.execute_op_imm inst).map adv
      else if op = 0x1B then (c3.execute_op_imm_32 inst).map adv
      else if op = 0x33 then (c3.execute_op inst).map adv
      else if op = 0x3B then (c3.execute_op_32 inst).map adv
      else if op = 0x03 then (c3.execute_load inst).map adv
      else if op = 0x23 then (c3.execute_store inst).map adv
      else if op = 0x63 then
        (c3.execute_branch inst).map (fun p => if p.1 then p.2 else adv p.2)
      else if op = 0x6F then some (c3.execute_jal inst)
      else if op = 0x67 then some (c3.execute_jalr inst)
      else if op = 0x37 then some (adv (c3.execute_lui inst))
      else if op = 0x17 then some (adv (c3.execute_auipc inst))
      else if op = 0x73 then
        (c3.execute_system inst).map (fun p => if p.1 then p.2 else adv p.2)
      else none

/-- src/elf.rs `ElfError`. -/
inductive ElfError where
  | InvalidMagic
  | InvalidClass
  | InvalidMachine
  | InvalidEndian
  | ParseError
deriving DecidableEq

/-- src/elf.rs `ELF_MAGIC`. -/
def ELF_MAGIC : List Nat := [0x7F, 0x45, 0x4C, 0x46]
/-- src/elf.rs `ELF_CLASS64`. -/
def ELF_CLASS64 : Nat := 2
/-- src/elf.rs `ELF_DATA2LSB`. -/
def ELF_DATA2LSB : Nat := 1
/-- src/elf.rs `EM_RISCV`. -/
def EM_RISCV : Nat := 0xF3
/-- src/elf.rs `PT_LOAD`. -/
def PT_LOAD : Nat := 1

/-- Rust slice `bytes[a..b]`: fatal (index out of range) unless
`a <= b <= bytes.len()`. -/
def sliceRange (bytes : List Nat) (a b : Nat) : Option (List Nat) :=
  if a ≤ b ∧ b ≤ bytes.length then some ((bytes.drop a).take (b - a))
  else none

/-- `uN::from_le_bytes`: little-endian recomposition of a byte list. -/
def leNat (l : List Nat) : Nat :=
  l.foldr (fun b acc => b % 0x100 + 0x100 * acc) 0

/-- `u16::from_le_bytes(bytes[off..off+2].try_into()?)`; the slice itself
is fatal out of range (the `try_into` conversion never fails on it). -/
def readU16 (bytes : List Nat) (off : Nat) : Option Nat :=
  (sliceRange bytes off (off + 2)).map leNat

/-- `u32::from_le_bytes` of `bytes[off..off+4]`. -/
def readU32 (bytes : List Nat) (off : Nat) : Option Nat :=
  (sliceRange bytes off (off + 4)).map leNat

/-- `u64::from_le_bytes` of `bytes[off..off+8]`. -/
def readU64 (bytes : List Nat) (off : Nat) : Option Nat :=
  (sliceRange bytes off (off + 8)).map leNat

/-- src/elf.rs `ElfHeader` (the parsed fields). -/
structure ElfHeader where
  e_ident : List Nat
  e_machine : Nat
  e_entry : Nat
  e_phoff : Nat
  e_phentsize : Nat
  e_phnum : Nat
deriving DecidableEq

/-- src/elf.rs `ElfHeader::validate`: magic, class, endianness, machine,
in that order. -/
def ElfHeader.validate (h : ElfHeader) : Except ElfError Unit :=
  if h.e_ident.take 4 ≠ ELF_MAGIC then Except.error ElfError.InvalidMagic
  else if h.e_ident.getD 4 0 ≠ ELF_CLASS64 then Except.error ElfError.InvalidClass
  else if h.e_ident.getD 5 0 ≠ ELF_DATA2LSB then Except.error ElfError.InvalidEndian
  else if h.e_machine ≠ EM_RISCV then Except.error ElfError.InvalidMachine
  else Except.ok ()

/-- src/elf.rs `ElfHeader::parse`: reads the header fields (slicing is
fatal on truncated input), then validates. `none` is a Rust panic; a
returned `Except.error` is a surfaced `ElfError`. -/
def ElfHeader.parse (bytes : List Nat) : Option (Except ElfError ElfHeader) :=
  match sliceRange bytes 0 16, readU16 bytes 0x12, readU64 bytes 0x18,
      readU64 bytes 0x20, readU16 bytes 0x36, readU16 bytes 0x38 with
  | some ident, some machine, some entry, some phoff, some phentsize,
      some phnum =>
    let h : ElfHeader := ⟨ident, machine, entry, phoff, phentsize, phnum⟩
    match h.validate with
    | Except.error e => some (Except.error e)
    | Except.ok _ => some (Except.ok h)
  | _, _, _, _, _, _ => none

/-- src/elf.rs `ProgramHeader` (the parsed fields). -/
structure ProgramHeader where
  p_type : Nat
  p_flags : Nat
  p_offset : Nat
  p_vaddr : Nat
  p_paddr : Nat
  p_filesz : Nat
  p_memsz : Nat
  p_align : Nat
deriving DecidableEq

/-- src/elf.rs `ProgramHeader::parse` over an already-shifted slice. -/
def ProgramHeader.parse (bytes : List Nat) : Option ProgramHeader :=
  match readU32 bytes 0x00, readU32 bytes 0x04, readU64 bytes 0x08,
      readU64 bytes 0x10, readU64 bytes 0x18, readU64 bytes 0x20,
      readU64 bytes 0x28, readU64 bytes 0x30 with
  | some t, some flags, some offset, some vaddr, some paddr, some filesz,
      some memsz, some align =>
    some ⟨t, flags, offset, vaddr, paddr, filesz, memsz, align⟩
  | _, _, _, _, _, _, _, _ => none

/-- src/elf.rs `Segment`. -/
structure Segment where
  vaddr : Nat
  data : List Nat
  memsz : Nat
deriving DecidableEq

/-- src/elf.rs `ElfFile`. -/
structure ElfFile where
  entry : Nat
  segments : List Segment
deriving DecidableEq

/-- src/elf.rs `ElfFile::load`: parse and validate the header, then walk
the program headers collecting `PT_LOAD` segments. `none` is a Rust panic
(truncated or malformed input hits a slice index out of range); a returned
`Except.error` is a surfaced `ElfError`. -/
def ElfFile.load (bytes : List Nat) : Option (Except ElfError ElfFile) :=
  match ElfHeader.parse bytes with
  | none => none
  | some (Except.error e) => some (Except.error e)
  | some (Except.ok header) =>
    let step := fun (segs : List Segment) (i : Nat) =>
      let offset := header.e_phoff + i * header.e_phentsize
      match sliceRange bytes offset bytes.length with
      | none => none
      | some sub =>
        match ProgramHeader.parse sub with
        | none => none
        | some ph =>
          if ph.p_type = PT_LOAD then
            match sliceRange bytes ph.p_offset (ph.p_offset + ph.p_filesz) with
            | none => none
            | some data =>
              some (segs ++ [(⟨ph.p_vaddr, data, ph.p_memsz⟩ : Segment)])
          else some segs
    match (List.range header.e_phnum).foldlM step [] with
    | none => none
    | some segs =>
      some (Except.ok { entry := header.e_entry, segments := segs })

/-- C1: for every cause and tval, `Cpu::trap(cause, tval)` from any state
sets MEPC to the old PC, MCAUSE to cause, MTVAL to tval, MSTATUS.MPIE to
the old MSTATUS.MIE bit, clears MSTATUS.MIE, sets MSTATUS.MPP (bits 12:11)
to the old privilege mode, switches to Machine mode, and computes the new
PC from MTVEC: `MTVEC & ~3` when MTVEC's low two bits are 0 or the cause
has no INTERRUPT_BIT, and `(MTVEC & ~3) + 4*(cause & 0x3FF)` when the low
two bits are 1 and the cause has INTERRUPT_BIT set. -/
theorem trap_spec (c : Cpu) (cause tval : Nat) :
    (c.trap cause tval).csr.read csr.MEPC = c.pc ∧
    (c.trap cause tval).csr.read csr.MCAUSE = cause ∧
    (c.trap cause tval).csr.read csr.MTVAL = tval ∧
    ((c.trap cause tval).csr.read csr.MSTATUS).testBit 7 =
      (c.csr.read csr.MSTATUS).testBit 3 ∧
    ((c.trap cause tval).csr.read csr.MSTATUS).testBit 3 = false ∧
    ((c.trap cause tval).csr.read csr.MSTATUS).testBit 11 = c.mode.code.testBit 0 ∧
    ((c.trap cause tval).csr.read csr.MSTATUS).testBit 12 = c.mode.code.testBit 1 ∧
    (c.trap cause tval).mode = PrivilegeMode.Machine ∧
    (c.csr.read csr.MTVEC &&& 0x3 = 0 ∨ cause &&& csr.INTERRUPT_BIT = 0 →
      (c.trap cause tval).pc = c.csr.read csr.MTVEC &&& 0xFFFFFFFFFFFFFFFC) ∧
    (c.csr.read csr.MTVEC &&& 0x3 = 1 ∧ cause &&& csr.INTERRUPT_BIT ≠ 0 →
      (c.trap cause tval).pc =
        (c.csr.read csr.MTVEC &&& 0xFFFFFFFFFFFFFFFC) + 4 * (cause &&& 0x3FF)) := by
  have h8 : c.csr 0x300 &&& 8 = ((c.csr 0x300).testBit 3).toNat * 8 := by
    have h := Nat.and_two_pow (c.csr 0x300) 3
    norm_num at h
    exact h
  refine ⟨?_, ?_, ?_, ?_, ?_, ?_, ?_, ?_, ?_, ?_⟩
  · simp [Cpu.trap, Csr.read, Csr.write, csr.MEPC, csr.MCAUSE, csr.MTVAL, csr.MSTATUS]
  · simp [Cpu.trap, Csr.read, Csr.write, csr.MEPC, csr.MCAUSE, csr.MTVAL, csr.MSTATUS]
  · simp [Cpu.trap, Csr.read, Csr.write, csr.MEPC, csr.MCAUSE, csr.MTVAL, csr.MSTATUS]
  · by_cases hb : (c.csr 0x300).testBit 3 = true <;>
    simp [Cpu.trap, Csr.read, Csr.write, csr.MEPC, csr.MCAUSE, csr.MTVAL, csr.MSTATUS,
      csr.MSTATUS_MIE, csr.MSTATUS_MPIE, Nat.testBit_lor, Nat.testBit_land, h8, hb,
      show Nat.testBit 18446744073709551607 7 = true by decide,
      show Nat.testBit 18446744073709545471 7 = true by decide,
      show Nat.testBit 18446744073709551487 7 = false by decide,
      show Nat.testBit 128 7 = true by decide]
  · simp [Cpu.trap, Csr.read, Csr.write, csr.MEPC, csr.MCAUSE, csr.MTVAL, csr.MSTATUS,
      csr.MSTATUS_MIE, csr.MSTATUS_MPIE, Nat.testBit_lor, Nat.testBit_land,
      show Nat.testBit 18446744073709551607 3 = false by decide]
  · cases hm : c.mode <;>
    simp [Cpu.trap, Csr.read, Csr.write, csr.MEPC, csr.MCAUSE, csr.MTVAL, csr.MSTATUS,
      csr.MSTATUS_MIE, csr.MSTATUS_MPIE, PrivilegeMode.code, hm,
      Nat.testBit_lor, Nat.testBit_land,
      show Nat.testBit 18446744073709545471 11 = false by decide] <;> decide
  · cases hm : c.mode <;>
    simp [Cpu.trap, Csr.read, Csr.write, csr.MEPC, csr.MCAUSE, csr.MTVAL, csr.MSTATUS,
      csr.MSTATUS_MIE, csr.MSTATUS_MPIE, PrivilegeMode.code, hm,
      Nat.testBit_lor, Nat.testBit_land,
      show Nat.testBit 18446744073709545471 12 = false by decide] <;> decide
  · simp [Cpu.trap]
  · intro h
    rcases h with h | h
    · simp only [Csr.read, csr.MTVEC] at h
      simp [Cpu.trap, Csr.read, Csr.write, csr.MEPC, csr.MCAUSE, csr.MTVAL,
        csr.MSTATUS, csr.MTVEC, h]
    · simp only [csr.INTERRUPT_BIT] at h
      simp [Cpu.trap, Csr.read, Csr.write, csr.MEPC, csr.MCAUSE, csr.MTVAL,
        csr.MSTATUS, csr.MTVEC, csr.INTERRUPT_BIT, h]
  · intro h
    obtain ⟨h1, h2⟩ := h
    simp only [Csr.read, csr.MTVEC] at h1
    simp only [csr.INTERRUPT_BIT] at h2
    have h2p : 0 < cause &&& 0x8000000000000000 := Nat.pos_of_ne_zero h2
    simp [Cpu.trap, Csr.read, Csr.write, csr.MEPC, csr.MCAUSE, csr.MTVAL, csr.MSTATUS,
      csr.MTVEC, csr.INTERRUPT_BIT, h1, h2p]

/-- A concrete state with a vectored MTVEC, used to witness `trap_spec`. -/
def cpuVectored : Cpu :=
  { Cpu.new [] with csr := (Cpu.new []).csr.write csr.MTVEC 0x80001001 }

/-- Witness for `trap_spec`: a vectored timer-interrupt trap at a concrete
state lands on `base + 4 * 7`. -/
theorem trap_spec_witness :
    (cpuVectored.csr.read csr.MTVEC &&& 0x3 = 1 ∧
      (csr.INTERRUPT_BIT ||| 7) &&& csr.INTERRUPT_BIT ≠ 0) ∧
    (cpuVectored.trap (csr.INTERRUPT_BIT ||| 7) 5).pc =
      (cpuVectored.csr.read csr.MTVEC &&& 0xFFFFFFFFFFFFFFFC) +
        4 * ((csr.INTERRUPT_BIT ||| 7) &&& 0x3FF) :=
  ⟨⟨by decide, by decide⟩,
    (trap_spec cpuVectored (csr.INTERRUPT_BIT ||| 7) 5).2.2.2.2.2.2.2.2.2
      ⟨by decide, by decide⟩⟩

/-- The MPP field (bits 12:11) of two words agree when their bits 11 and
12 agree. -/
lemma and6144_congr (x y : Nat) (hA : x.testBit 11 = y.testBit 11)
    (hB : x.testBit 12 = y.testBit 12) : x &&& 6144 = y &&& 6144 := by
  apply Nat.eq_of_testBit_eq
  intro i
  by_cases h11 : i = 11
  · subst h11
    simp [Nat.testBit_land, hA]
  · by_cases h12 : i = 12
    · subst h12
      simp [Nat.testBit_land, hB]
    · have hne1 : ¬ 11 = i := by omega
      have hne2 : ¬ 12 = i := by omega
      have h6144 : Nat.testBit 6144 i = false := by
        rw [show (6144 : Nat) = 2 ^ 11 ||| 2 ^ 12 from by decide]
        simp only [Nat.testBit_lor, Nat.testBit_two_pow]
        simp [hne1, hne2]
      simp [Nat.testBit_land, h6144]

/-- The MRET MIE/MPIE updates leave the MPP field untouched (if form). -/
lemma mret_mpp_ite (m : Nat) :
    (((if m &&& 128 = 0 then m &&& 0xFFFFFFFFFFFFFFF7 else m ||| 8) ||| 128) &&& 6144)
      = m &&& 6144 := by
  apply and6144_congr <;>
  by_cases hb : m &&& 128 = 0 <;>
  simp [hb, Nat.testBit_lor, Nat.testBit_land,
    show Nat.testBit 8 11 = false from by decide,
    show Nat.testBit 128 11 = false from by decide,
    show Nat.testBit 18446744073709551607 11 = true from by decide,
    show Nat.testBit 8 12 = false from by decide,
    show Nat.testBit 128 12 = false from by decide,
    show Nat.testBit 18446744073709551607 12 = true from by decide]

/-- The MRET MIE/MPIE updates leave the MPP field untouched (or form). -/
lemma mret_mpp_or (m : Nat) : ((m ||| 8 ||| 128) &&& 6144) = m &&& 6144 := by
  apply and6144_congr <;>
  simp [Nat.testBit_lor,
    show Nat.testBit 8 11 = false from by decide,
    show Nat.testBit 128 11 = false from by decide,
    show Nat.testBit 8 12 = false from by decide,
    show Nat.testBit 128 12 = false from by decide]

/-- The MRET MIE/MPIE updates leave the MPP field untouched (and form). -/
lemma mret_mpp_and (m : Nat) :
    ((m &&& 18446744073709551607 ||| 128) &&& 6144) = m &&& 6144 := by
  apply and6144_congr <;>
  simp [Nat.testBit_lor, Nat.testBit_land,
    show Nat.testBit 128 11 = false from by decide,
    show Nat.testBit 18446744073709551607 11 = true from by decide,
    show Nat.testBit 128 12 = false from by decide,
    show Nat.testBit 18446744073709551607 12 = true from by decide]

/-- C3: executing MRET (SYSTEM funct3=0, funct7=0x18, rs2=0x02) from any
state sets PC to MEPC, copies MSTATUS.MPIE into MSTATUS.MIE, sets
MSTATUS.MPIE to 1, sets the privilege mode to the decoding of the old
MSTATUS.MPP field (0 to User, 1 to Supervisor, 3 to Machine; the encoding
2 is fatal), and clears MSTATUS.MPP to 0. -/
theorem mret_spec (c : Cpu) (inst : Nat)
    (h3 : decoder.funct3 inst = 0) (h7 : decoder.funct7 inst = 0x18)
    (hr2 : decoder.rs2 inst = 0x02) :
    ((c.csr.read csr.MSTATUS &&& 0x1800) >>> 11 = 0 →
      ((Cpu.execute_system c inst).map fun p => p.2.mode) =
        some PrivilegeMode.User) ∧
    ((c.csr.read csr.MSTATUS &&& 0x1800) >>> 11 = 1 →
      ((Cpu.execute_system c inst).map fun p => p.2.mode) =
        some PrivilegeMode.Supervisor) ∧
    ((c.csr.read csr.MSTATUS &&& 0x1800) >>> 11 = 3 →
      ((Cpu.execute_system c inst).map fun p => p.2.mode) =
        some PrivilegeMode.Machine) ∧
    ((c.csr.read csr.MSTATUS &&& 0x1800) >>> 11 = 2 →
      Cpu.execute_system c inst = none) ∧
    ((c.csr.read csr.MSTATUS &&& 0x1800) >>> 11 ≠ 2 →
      ((Cpu.execute_system c inst).map fun p => p.1) = some true ∧
      ((Cpu.execute_system c inst).map fun p => p.2.pc) =
        some (c.csr.read csr.MEPC) ∧
      ((Cpu.execute_system c inst).map
          fun p => (p.2.csr.read csr.MSTATUS).testBit 3) =
        some ((c.csr.read csr.MSTATUS).testBit 7) ∧
      ((Cpu.execute_system c inst).map
          fun p => (p.2.csr.read csr.MSTATUS).testBit 7) = some true ∧
      ((Cpu.execute_system c inst).map
          fun p => (p.2.csr.read csr.MSTATUS).testBit 11) = some false ∧
      ((Cpu.execute_system c inst).map
          fun p => (p.2.csr.read csr.MSTATUS).testBit 12) = some false) := by
  have h128 : c.csr 0x300 &&& 128 = ((c.csr 0x300).testBit 7).toNat * 128 := by
    have h := Nat.and_two_pow (c.csr 0x300) 7
    norm_num at h
    exact h
  have hlt : (c.csr 0x300 &&& 0x1800) >>> 11 < 4 := by
    have hle : c.csr 0x300 &&& 0x1800 ≤ 0x1800 := Nat.and_le_right
    have := Nat.shiftRight_eq_div_pow (c.csr 0x300 &&& 0x1800) 11
    omega
  refine ⟨?_, ?_, ?_, ?_, ?_⟩
  · intro hm
    simp only [Csr.read, csr.MSTATUS] at hm
    simp [Cpu.execute_system, h3, h7, hr2, Csr.read, Csr.write, csr.MEPC,
      csr.MSTATUS, csr.MSTATUS_MIE, csr.MSTATUS_MPIE, csr.MSTATUS_MPP,
      mret_mpp_ite, mret_mpp_or, mret_mpp_and, hm]
  · intro hm
    simp only [Csr.read, csr.MSTATUS] at hm
    simp [Cpu.execute_system, h3, h7, hr2, Csr.read, Csr.write, csr.MEPC,
      csr.MSTATUS, csr.MSTATUS_MIE, csr.MSTATUS_MPIE, csr.MSTATUS_MPP,
      mret_mpp_ite, mret_mpp_or, mret_mpp_and, hm]
  · intro hm
    simp only [Csr.read, csr.MSTATUS] at hm
    simp [Cpu.execute_system, h3, h7, hr2, Csr.read, Csr.write, csr.MEPC,
      csr.MSTATUS, csr.MSTATUS_MIE, csr.MSTATUS_MPIE, csr.MSTATUS_MPP,
      mret_mpp_ite, mret_mpp_or, mret_mpp_and, hm]
  · intro hm
    simp only [Csr.read, csr.MSTATUS] at hm
    simp [Cpu.execute_system, h3, h7, hr2, Csr.read, Csr.write, csr.MEPC,
      csr.MSTATUS, csr.MSTATUS_MIE, csr.MSTATUS_MPIE, csr.MSTATUS_MPP,
      mret_mpp_ite, mret_mpp_or, mret_mpp_and, hm]
  · intro hm
    simp only [Csr.read, csr.MSTATUS] at hm
    have hcases : (c.csr 0x300 &&& 0x1800) >>> 11 = 0 ∨
        (c.csr 0x300 &&& 0x1800) >>> 11 = 1 ∨
        (c.csr 0x300 &&& 0x1800) >>> 11 = 3 := by omega
    refine ⟨?_, ?_, ?_, ?_, ?_, ?_⟩ <;>
    rcases hcases with hm0 | hm0 | hm0 <;>
    by_cases hb : (c.csr 0x300).testBit 7 = true <;>
    simp [Cpu.execute_system, h3, h7, hr2, Csr.read, Csr.write, csr.MEPC,
      csr.MSTATUS, csr.MSTATUS_MIE, csr.MSTATUS_MPIE, csr.MSTATUS_MPP,
      mret_mpp_ite, mret_mpp_or, mret_mpp_and, hm0, h128, hb,
      Nat.testBit_lor, Nat.testBit_land,
      show Nat.testBit 8 3 = true from by decide,
      show Nat.testBit 128 3 = false from by decide,
      show Nat.testBit 128 7 = true from by decide,
      show Nat.testBit 8 7 = false from by decide,
      show Nat.testBit 8 11 = false from by decide,
      show Nat.testBit 8 12 = false from by decide,
      show Nat.testBit 128 11 = false from by decide,
      show Nat.testBit 128 12 = false from by decide,
      show Nat.testBit 18446744073709545471 3 = true from by decide,
      show Nat.testBit 18446744073709545471 7 = true from by decide,
      show Nat.testBit 18446744073709545471 11 = false from by decide,
      show Nat.testBit 18446744073709545471 12 = false from by decide,
      show Nat.testBit 18446744073709551607 3 = false from by decide,
      show Nat.testBit 18446744073709551607 7 = true from by decide]

/-- A concrete state with MPIE set and MPP=Supervisor, for `mret_spec`. -/
def cpuMret : Cpu :=
  { Cpu.new [] with
    csr := (((Cpu.new []).csr.write csr.MSTATUS 0x880).write csr.MEPC
      0x80002000) }

/-- Witness for `mret_spec`: MRET (0x30200073) at a concrete state with
MPP=1 returns to Supervisor mode at MEPC. -/
theorem mret_spec_witness :
    ((cpuMret.csr.read csr.MSTATUS &&& 0x1800) >>> 11 = 1) ∧
    ((Cpu.execute_system cpuMret 0x30200073).map fun p => p.2.mode) =
      some PrivilegeMode.Supervisor ∧
    ((Cpu.execute_system cpuMret 0x30200073).map fun p => p.2.pc) =
      some (cpuMret.csr.read csr.MEPC) :=
  ⟨by decide,
   (mret_spec cpuMret 0x30200073 (by decide) (by decide) (by decide)).2.1
     (by decide),
   ((mret_spec cpuMret 0x30200073 (by decide) (by decide)
       (by decide)).2.2.2.2 (by decide)).2.1⟩

/-- MIP synchronization leaves MSTATUS untouched. -/
lemma sync_mip_mstatus (x : Cpu) :
    (x.sync_mip).csr.read csr.MSTATUS = x.csr.read csr.MSTATUS := by
  simp [Cpu.sync_mip, Csr.read, Csr.write, csr.MIP, csr.MSTATUS]

/-- C2: during `Cpu::step`, an interrupt trap is taken only when
MSTATUS.MIE is set, and pending interrupts are checked in the fixed
priority software (3), timer (7), external (11) against the MIP bits just
synchronized from the devices: the first with both its MIP and MIE bits
set traps with `INTERRUPT_BIT | code` and the step returns without
fetching or executing the instruction at PC. In particular, with software
and timer both pending and enabled, MCAUSE is `INTERRUPT_BIT | 3`. -/
theorem step_interrupt_priority (c : Cpu) :
    ((Cpu.check_pending_interrupts
        { c with bus := c.bus.receive_uart_input.tick }).1 = true →
      c.csr.read csr.MSTATUS &&& csr.MSTATUS_MIE ≠ 0) ∧
    (c.csr.read csr.MSTATUS &&& csr.MSTATUS_MIE ≠ 0 →
      ((Cpu.sync_mip { c with bus := c.bus.receive_uart_input.tick }).csr.read
          csr.MIP &&& csr.MIP_MSIP ≠ 0 ∧
        (Cpu.sync_mip { c with bus := c.bus.receive_uart_input.tick }).csr.read
          csr.MIE &&& csr.MIE_MSIE ≠ 0) →
      Cpu.step c = some ((Cpu.sync_mip
          { c with bus := c.bus.receive_uart_input.tick }).trap
        (csr.INTERRUPT_BIT ||| csr.INTERRUPT_FROM_SOFTWARE) 0) ∧
      (Cpu.step c).map (fun s => s.csr.read csr.MCAUSE) =
        some (csr.INTERRUPT_BIT ||| 3)) ∧
    (c.csr.read csr.MSTATUS &&& csr.MSTATUS_MIE ≠ 0 →
      ¬ ((Cpu.sync_mip { c with bus := c.bus.receive_uart_input.tick }).csr.read
          csr.MIP &&& csr.MIP_MSIP ≠ 0 ∧
        (Cpu.sync_mip { c with bus := c.bus.receive_uart_input.tick }).csr.read
          csr.MIE &&& csr.MIE_MSIE ≠ 0) →
      ((Cpu.sync_mip { c with bus := c.bus.receive_uart_input.tick }).csr.read
          csr.MIP &&& csr.MIP_MTIP ≠ 0 ∧
        (Cpu.sync_mip { c with bus := c.bus.receive_uart_input.tick }).csr.read
          csr.MIE &&& csr.MIE_MTIE ≠ 0) →
      Cpu.step c = some ((Cpu.sync_mip
          { c with bus := c.bus.receive_uart_input.tick }).trap
        (csr.INTERRUPT_BIT ||| csr.INTERRUPT_FROM_TIMER) 0)) ∧
    (c.csr.read csr.MSTATUS &&& csr.MSTATUS_MIE ≠ 0 →
      ¬ ((Cpu.sync_mip { c with bus := c.bus.receive_uart_input.tick }).csr.read
          csr.MIP &&& csr.MIP_MSIP ≠ 0 ∧
        (Cpu.sync_mip { c with bus := c.bus.receive_uart_input.tick }).csr.read
          csr.MIE &&& csr.MIE_MSIE ≠ 0) →
      ¬ ((Cpu.sync_mip { c with bus := c.bus.receive_uart_input.tick }).csr.read
          csr.MIP &&& csr.MIP_MTIP ≠ 0 ∧
        (Cpu.sync_mip { c with bus := c.bus.receive_uart_input.tick }).csr.read
          csr.MIE &&& csr.MIE_MTIE ≠ 0) →
      ((Cpu.sync_mip { c with bus := c.bus.receive_uart_input.tick }).csr.read
          csr.MIP &&& csr.MIP_MEIP ≠ 0 ∧
        (Cpu.sync_mip { c with bus := c.bus.receive_uart_input.tick }).csr.read
          csr.MIE &&& csr.MIE_MEIE ≠ 0) →
      Cpu.step c = some ((Cpu.sync_mip
          { c with bus := c.bus.receive_uart_input.tick }).trap
        (csr.INTERRUPT_BIT ||| csr.INTERRUPT_FROM_EXTERNAL) 0)) := by
  refine ⟨?_, ?_, ?_, ?_⟩
  · intro htaken
    by_cases hmie : c.csr.read csr.MSTATUS &&& csr.MSTATUS_MIE = 0
    · exfalso
      have hms : ({ c with bus := c.bus.receive_uart_input.tick } :
          Cpu).csr.read csr.MSTATUS &&& csr.MSTATUS_MIE = 0 := hmie
      rw [Cpu.check_pending_interrupts] at htaken
      rw [sync_mip_mstatus] at htaken
      simp [hms] at htaken
    · exact hmie
  · intro hmie hsw
    have hcp : Cpu.check_pending_interrupts
        { c with bus := c.bus.receive_uart_input.tick } =
        (true, (Cpu.sync_mip
          { c with bus := c.bus.receive_uart_input.tick }).trap
          (csr.INTERRUPT_BIT ||| csr.INTERRUPT_FROM_SOFTWARE) 0) := by
      rw [Cpu.check_pending_interrupts]
      rw [sync_mip_mstatus]
      rw [if_neg hmie, if_pos hsw]
    constructor
    · rw [Cpu.step]
      simp only [hcp]
    · rw [Cpu.step]
      simp only [hcp]
      simp [Cpu.trap, Csr.read, Csr.write, csr.MCAUSE, csr.MTVAL, csr.MSTATUS,
        csr.INTERRUPT_FROM_SOFTWARE]
  · intro hmie hnsw htimer
    have hcp : Cpu.check_pending_interrupts
        { c with bus := c.bus.receive_uart_input.tick } =
        (true, (Cpu.sync_mip
          { c with bus := c.bus.receive_uart_input.tick }).trap
          (csr.INTERRUPT_BIT ||| csr.INTERRUPT_FROM_TIMER) 0) := by
      rw [Cpu.check_pending_interrupts]
      rw [sync_mip_mstatus]
      rw [if_neg hmie, if_neg hnsw, if_pos htimer]
    rw [Cpu.step]
    simp only [hcp]
  · intro hmie hnsw hntimer hext
    have hcp : Cpu.check_pending_interrupts
        { c with bus := c.bus.receive_uart_input.tick } =
        (true, (Cpu.sync_mip
          { c with bus := c.bus.receive_uart_input.tick }).trap
          (csr.INTERRUPT_BIT ||| csr.INTERRUPT_FROM_EXTERNAL) 0) := by
      rw [Cpu.check_pending_interrupts]
      rw [sync_mip_mstatus]
      rw [if_neg hmie, if_neg hnsw, if_neg hntimer, if_pos hext]
    rw [Cpu.step]
    simp only [hcp]

/-- A concrete state with MIE on, software and timer interrupts both
pending and enabled, for `step_interrupt_priority`. -/
def cpuBothPending : Cpu :=
  { Cpu.new [] with
    csr := (((Cpu.new []).csr.write csr.MSTATUS 0x8).write csr.MIE 0x88),
    bus := { Bus.new [] with clint := { Clint.new with msip := true } } }

/-- Witness for `step_interrupt_priority`: with software and timer both
pending and enabled, the cause written to MCAUSE is `INTERRUPT_BIT | 3`
(software), not the timer cause. -/
theorem step_interrupt_priority_witness :
    (cpuBothPending.csr.read csr.MSTATUS &&& csr.MSTATUS_MIE ≠ 0 ∧
      (Cpu.sync_mip { cpuBothPending with
          bus := cpuBothPending.bus.receive_uart_input.tick }).csr.read
        csr.MIP &&& csr.MIP_MTIP ≠ 0) ∧
    (Cpu.step cpuBothPending).map (fun s => s.csr.read csr.MCAUSE) =
      some (csr.INTERRUPT_BIT ||| 3) :=
  ⟨⟨by decide, by decide⟩,
    ((step_interrupt_priority cpuBothPending).2.1 (by decide)
      ⟨by decide, by decide⟩).2⟩

/-- A successful 8-bit bus write leaves exactly the invalidated
reservation table. -/
lemma write8_reservations (b : Bus) (addr value : Nat) (b2 : Bus)
    (h : Bus.write8 b addr value = some b2) :
    b2.reservations = (b.invalidate_reservations addr).reservations := by
  simp only [Bus.write8] at h
  split at h
  · rcases Option.map_eq_some'.mp h with ⟨u, _, rfl⟩
    rfl
  · split at h
    · rcases Option.map_eq_some'.mp h with ⟨m, _, rfl⟩
      rfl
    · exact absurd h (by simp)

/-- A successful 16-bit bus write leaves exactly the invalidated
reservation table. -/
lemma write16_reservations (b : Bus) (addr value : Nat) (b2 : Bus)
    (h : Bus.write16 b addr value = some b2) :
    b2.reservations = (b.invalidate_reservations addr).reservations := by
  simp only [Bus.write16] at h
  split at h
  · rcases Option.map_eq_some'.mp h with ⟨u, _, rfl⟩
    rfl
  · split at h
    · rcases Option.map_eq_some'.mp h with ⟨m, _, rfl⟩
      rfl
    · exact absurd h (by simp)

/-- A successful 32-bit bus write leaves exactly the invalidated
reservation table. -/
lemma write32_reservations (b : Bus) (addr value : Nat) (b2 : Bus)
    (h : Bus.write32 b addr value = some b2) :
    b2.reservations = (b.invalidate_reservations addr).reservations := by
  simp only [Bus.write32] at h
  split at h
  · rcases Option.map_eq_some'.mp h with ⟨x, _, rfl⟩
    rfl
  · split at h
    · rcases Option.map_eq_some'.mp h with ⟨u, _, rfl⟩
      rfl
    · split at h
      · rcases Option.map_eq_some'.mp h with ⟨m, _, rfl⟩
        rfl
      · exact absurd h (by simp)

/-- A successful 64-bit bus write leaves exactly the invalidated
reservation table. -/
lemma write64_reservations (b : Bus) (addr value : Nat) (b2 : Bus)
    (h : Bus.write64 b addr value = some b2) :
    b2.reservations = (b.invalidate_reservations addr).reservations := by
  simp only [Bus.write64] at h
  split at h
  · rcases Option.map_eq_some'.mp h with ⟨x, _, rfl⟩
    rfl
  · split at h
    · rcases Option.map_eq_some'.mp h with ⟨u, _, rfl⟩
      rfl
    · split at h
      · rcases Option.map_eq_some'.mp h with ⟨m, _, rfl⟩
        rfl
      · exact absurd h (by simp)

/-- The invalidated table answers false at the written address and keeps
every other entry. -/
lemma invalidated_table_spec (b : Bus) (addr : Nat) (b2 : Bus)
    (hr : b2.reservations = (b.invalidate_reservations addr).reservations) :
    (∀ hart, b2.check_reservation hart addr = false) ∧
    (∀ hart r, r ≠ addr →
      (b2.reservations hart = some r ↔ b.reservations hart = some r)) := by
  constructor
  · intro hart
    simp only [Bus.check_reservation, hr, Bus.invalidate_reservations]
    cases hcase : b.reservations hart with
    | none => simp
    | some v =>
      by_cases hv : v = addr <;> simp [hv]
  · intro hart r hne
    simp only [hr, Bus.invalidate_reservations]
    cases hcase : b.reservations hart with
    | none => simp
    | some v =>
      by_cases hv : v = addr <;> simp [hv]
      omega

/-- C4: for every bus write of any width (8, 16, 32, 64 bits) to any
address that completes, every hart's reservation on the written address is
removed (`check_reservation` answers false for it on every hart) and every
reservation on a different address is left unchanged. -/
theorem bus_write_invalidates_reservations (b : Bus) (addr value : Nat) :
    (∀ b2, Bus.write8 b addr value = some b2 →
      (∀ hart, b2.check_reservation hart addr = false) ∧
      (∀ hart r, r ≠ addr →
        (b2.reservations hart = some r ↔ b.reservations hart = some r))) ∧
    (∀ b2, Bus.write16 b addr value = some b2 →
      (∀ hart, b2.check_reservation hart addr = false) ∧
      (∀ hart r, r ≠ addr →
        (b2.reservations hart = some r ↔ b.reservations hart = some r))) ∧
    (∀ b2, Bus.write32 b addr value = some b2 →
      (∀ hart, b2.check_reservation hart addr = false) ∧
      (∀ hart r, r ≠ addr →
        (b2.reservations hart = some r ↔ b.reservations hart = some r))) ∧
    (∀ b2, Bus.write64 b addr value = some b2 →
      (∀ hart, b2.check_reservation hart addr = false) ∧
      (∀ hart r, r ≠ addr →
        (b2.reservations hart = some r ↔ b.reservations hart = some r))) := by
  refine ⟨?_, ?_, ?_, ?_⟩
  · intro b2 h
    exact invalidated_table_spec b addr b2 (write8_reservations b addr value b2 h)
  · intro b2 h
    exact invalidated_table_spec b addr b2 (write16_reservations b addr value b2 h)
  · intro b2 h
    exact invalidated_table_spec b addr b2 (write32_reservations b addr value b2 h)
  · intro b2 h
    exact invalidated_table_spec b addr b2 (write64_reservations b addr value b2 h)

/-- A concrete bus with two live reservations, for the C4 witness. -/
def busReserved : Bus := ((Bus.new []).reserve 0 0x80001000).reserve 1 0x80002000

/-- The bus after a 32-bit write to the first reserved address. -/
def busWritten : Bus :=
  (busReserved.write32 0x80001000 0x12345678).getD (Bus.new [])

/-- Witness for `bus_write_invalidates_reservations`: a 32-bit DRAM write
at one reserved address clears that reservation and keeps the other
hart's reservation on a different address. -/
theorem bus_write_invalidates_reservations_witness :
    (busReserved.write32 0x80001000 0x12345678 = some busWritten) ∧
    busWritten.check_reservation 0 0x80001000 = false ∧
    (busWritten.reservations 1 = some 0x80002000 ↔
      busReserved.reservations 1 = some 0x80002000) :=
  ⟨rfl,
    ((bus_write_invalidates_reservations busReserved 0x80001000
      0x12345678).2.2.1 busWritten rfl).1 0,
    ((bus_write_invalidates_reservations busReserved 0x80001000
      0x12345678).2.2.1 busWritten rfl).2 1 0x80002000 (by decide)⟩

/-- C10: for every address in the CLINT range, the 8-bit and 16-bit bus
reads and writes are fatal (they fall through to the unmapped-address
branch), even though 32/64-bit accesses at the same address are routed to
the CLINT. -/
theorem clint_narrow_access_fatal (b : Bus) (addr value : Nat)
    (h1 : CLINT_BASE ≤ addr) (h2 : addr < CLINT_BASE + CLINT_SIZE) :
    Bus.read8 b addr = none ∧ Bus.read16 b addr = none ∧
    Bus.write8 b addr value = none ∧ Bus.write16 b addr value = none ∧
    Bus.read32 b addr =
      (b.clint.read32 (addr - CLINT_BASE)).map (fun v => (v, b)) ∧
    Bus.read64 b addr =
      (b.clint.read64 (addr - CLINT_BASE)).map (fun v => (v, b)) := by
  simp only [CLINT_BASE, CLINT_SIZE] at h1 h2
  have hnu : ¬ (UART_BASE ≤ addr ∧ addr < UART_BASE + UART_SIZE) := by
    simp only [UART_BASE, UART_SIZE]
    omega
  have hnd : ¬ DRAM_BASE ≤ addr := by
    simp only [DRAM_BASE]
    omega
  have hc : CLINT_BASE ≤ addr ∧ addr < CLINT_BASE + CLINT_SIZE := by
    simp only [CLINT_BASE, CLINT_SIZE]
    omega
  refine ⟨?_, ?_, ?_, ?_, ?_, ?_⟩
  · simp [Bus.read8, hnu, hnd]
  · simp [Bus.read16, hnu, hnd]
  · simp [Bus.write8, hnu, hnd]
  · simp [Bus.write16, hnu, hnd]
  · simp [Bus.read32, hc]
  · simp [Bus.read64, hc]

/-- Witness for `clint_narrow_access_fatal` at the mtime register address:
byte and halfword accesses are fatal while the 64-bit read is routed to
the CLINT. -/
theorem clint_narrow_access_fatal_witness :
    (CLINT_BASE ≤ 0x200BFF8 ∧ 0x200BFF8 < CLINT_BASE + CLINT_SIZE) ∧
    Bus.read8 (Bus.new []) 0x200BFF8 = none ∧
    Bus.write16 (Bus.new []) 0x200BFF8 7 = none :=
  ⟨⟨by decide, by decide⟩,
    (clint_narrow_access_fatal (Bus.new []) 0x200BFF8 7 (by decide)
      (by decide)).1,
    (clint_narrow_access_fatal (Bus.new []) 0x200BFF8 7 (by decide)
      (by decide)).2.2.2.1⟩

/-- C9: for every access width in {1,2,4,8} bytes, every address whose
whole access lies inside the DRAM region, and every value representable
in that width, a bus write followed by a bus read of the same width at
the same address returns the value. -/
theorem dram_write_read_roundtrip (b : Bus) (addr v : Nat)
    (ha : DRAM_BASE ≤ addr) :
    (addr + 1 ≤ DRAM_BASE + DRAM_SIZE → v < 2 ^ 8 →
      ((Bus.write8 b addr v).bind fun b2 =>
        (Bus.read8 b2 addr).map Prod.fst) = some v) ∧
    (addr + 2 ≤ DRAM_BASE + DRAM_SIZE → v < 2 ^ 16 →
      ((Bus.write16 b addr v).bind fun b2 =>
        (Bus.read16 b2 addr).map Prod.fst) = some v) ∧
    (addr + 4 ≤ DRAM_BASE + DRAM_SIZE → v < 2 ^ 32 →
      ((Bus.write32 b addr v).bind fun b2 =>
        (Bus.read32 b2 addr).map Prod.fst) = some v) ∧
    (addr + 8 ≤ DRAM_BASE + DRAM_SIZE → v < 2 ^ 64 →
      ((Bus.write64 b addr v).bind fun b2 =>
        (Bus.read64 b2 addr).map Prod.fst) = some v) := by
  simp only [DRAM_BASE, DRAM_SIZE] at ha
  have hnc : ¬ (CLINT_BASE ≤ addr ∧ addr < CLINT_BASE + CLINT_SIZE) := by
    simp only [CLINT_BASE, CLINT_SIZE]
    omega
  have hnu : ¬ (UART_BASE ≤ addr ∧ addr < UART_BASE + UART_SIZE) := by
    simp only [UART_BASE, UART_SIZE]
    omega
  have hd : DRAM_BASE ≤ addr := by
    simp only [DRAM_BASE]
    omega
  refine ⟨?_, ?_, ?_, ?_⟩
  · intro hb hv
    simp only [DRAM_BASE, DRAM_SIZE] at hb
    have hm : DRAM_BASE ≤ addr ∧ addr - DRAM_BASE < DRAM_SIZE := by
      simp only [DRAM_BASE, DRAM_SIZE]
      omega
    simp [Bus.write8, Bus.read8, hnu, hd, Memory.write8, Memory.read8, hm,
      Memory.setByte]
    omega
  · intro hb hv
    simp only [DRAM_BASE, DRAM_SIZE] at hb
    have hm : DRAM_BASE ≤ addr ∧ addr - DRAM_BASE + 1 < DRAM_SIZE := by
      simp only [DRAM_BASE, DRAM_SIZE]
      omega
    simp [Bus.write16, Bus.read16, hnu, hd, Memory.write16, Memory.read16, hm,
      Memory.setByte]
    omega
  · intro hb hv
    simp only [DRAM_BASE, DRAM_SIZE] at hb
    have hm : DRAM_BASE ≤ addr ∧ addr - DRAM_BASE + 3 < DRAM_SIZE := by
      simp only [DRAM_BASE, DRAM_SIZE]
      omega
    simp [Bus.write32, Bus.read32, hnc, hnu, hd, Memory.write32, Memory.read32,
      hm, Memory.setByte]
    omega
  · intro hb hv
    simp only [DRAM_BASE, DRAM_SIZE] at hb
    have hm : DRAM_BASE ≤ addr ∧ addr - DRAM_BASE + 7 < DRAM_SIZE := by
      simp only [DRAM_BASE, DRAM_SIZE]
      omega
    simp [Bus.write64, Bus.read64, hnc, hnu, hd, Memory.write64, Memory.read64,
      hm, Memory.setByte]
    omega

/-- Witness for `dram_write_read_roundtrip`: writing `0xDEADBEEF` as a
32-bit value at the DRAM base and reading it back returns it. -/
theorem dram_write_read_roundtrip_witness :
    (DRAM_BASE ≤ 0x80000000 ∧ 0x80000000 + 4 ≤ DRAM_BASE + DRAM_SIZE ∧
      0xDEADBEEF < 2 ^ 32) ∧
    ((Bus.write32 (Bus.new []) 0x80000000 0xDEADBEEF).bind fun b2 =>
      (Bus.read32 b2 0x80000000).map Prod.fst) = some 0xDEADBEEF :=
  ⟨⟨by decide, by decide, by decide⟩,
    (dram_write_read_roundtrip (Bus.new []) 0x80000000 0xDEADBEEF
      (by decide)).2.2.1 (by decide) (by decide)⟩

/-- C7: for DIV, DIVU, REM, REMU and the W variants under `funct7 = 0x01`,
a zero divisor register writes all-ones for the quotient instructions and
the dividend (sign-extended low word for the W forms) for the remainder
instructions, and the signed overflow `i64::MIN / -1` wraps to `i64::MIN`
rather than trapping. -/
theorem div_rem_spec (c : Cpu) (inst : Nat) (h7 : decoder.funct7 inst = 0x01) :
    (decoder.funct3 inst = 0x4 → c.read_reg (decoder.rs2 inst) = 0 →
      Cpu.execute_op c inst =
        some (c.write_reg (decoder.rd inst) 0xFFFFFFFFFFFFFFFF)) ∧
    (decoder.funct3 inst = 0x5 → c.read_reg (decoder.rs2 inst) = 0 →
      Cpu.execute_op c inst =
        some (c.write_reg (decoder.rd inst) 0xFFFFFFFFFFFFFFFF)) ∧
    (decoder.funct3 inst = 0x6 → c.read_reg (decoder.rs2 inst) = 0 →
      Cpu.execute_op c inst =
        some (c.write_reg (decoder.rd inst) (c.read_reg (decoder.rs1 inst)))) ∧
    (decoder.funct3 inst = 0x7 → c.read_reg (decoder.rs2 inst) = 0 →
      Cpu.execute_op c inst =
        some (c.write_reg (decoder.rd inst) (c.read_reg (decoder.rs1 inst)))) ∧
    (decoder.funct3 inst = 0x4 →
      c.read_reg (decoder.rs1 inst) = 0x8000000000000000 →
      c.read_reg (decoder.rs2 inst) = 0xFFFFFFFFFFFFFFFF →
      Cpu.execute_op c inst =
        some (c.write_reg (decoder.rd inst) 0x8000000000000000)) ∧
    (decoder.funct3 inst = 0x4 → c.read_reg (decoder.rs2 inst) = 0 →
      Cpu.execute_op_32 c inst =
        some (c.write_reg (decoder.rd inst) 0xFFFFFFFFFFFFFFFF)) ∧
    (decoder.funct3 inst = 0x5 → c.read_reg (decoder.rs2 inst) = 0 →
      Cpu.execute_op_32 c inst =
        some (c.write_reg (decoder.rd inst) 0xFFFFFFFFFFFFFFFF)) ∧
    (decoder.funct3 inst = 0x6 → c.read_reg (decoder.rs2 inst) = 0 →
      Cpu.execute_op_32 c inst =
        some (c.write_reg (decoder.rd inst)
          (sext32 (c.read_reg (decoder.rs1 inst))))) ∧
    (decoder.funct3 inst = 0x7 → c.read_reg (decoder.rs2 inst) = 0 →
      Cpu.execute_op_32 c inst =
        some (c.write_reg (decoder.rd inst)
          (sext32 (c.read_reg (decoder.rs1 inst))))) := by
  refine ⟨?_, ?_, ?_, ?_, ?_, ?_, ?_, ?_, ?_⟩ <;> intro h3 hz
  · simp [Cpu.execute_op, h3, h7, hz]
  · simp [Cpu.execute_op, h3, h7, hz]
  · simp [Cpu.execute_op, h3, h7, hz]
  · simp [Cpu.execute_op, h3, h7, hz]
  · intro hz2
    simp [Cpu.execute_op, h3, h7, hz, hz2,
      show wdiv64 0x8000000000000000 0xFFFFFFFFFFFFFFFF = 0x8000000000000000
        from by decide]
  · simp [Cpu.execute_op_32, h3, h7, hz]
  · simp [Cpu.execute_op_32, h3, h7, hz]
  · simp [Cpu.execute_op_32, h3, h7, hz]
  · simp [Cpu.execute_op_32, h3, h7, hz]

/-- A concrete state holding `i64::MIN` in x1 and `-1` in x2, for the C7
witness. -/
def cpuDiv : Cpu :=
  { Cpu.new [] with regs := fun i =>
      if i = 1 then 0x8000000000000000
      else if i = 2 then 0xFFFFFFFFFFFFFFFF else 0 }

/-- Witness for `div_rem_spec`: DIV x3, x1, x2 (0x0220C1B3) on
`i64::MIN / -1` wraps to `i64::MIN`. -/
theorem div_rem_spec_witness :
    (decoder.funct7 0x0220C1B3 = 0x01 ∧ decoder.funct3 0x0220C1B3 = 0x4 ∧
      cpuDiv.read_reg (decoder.rs1 0x0220C1B3) = 0x8000000000000000 ∧
      cpuDiv.read_reg (decoder.rs2 0x0220C1B3) = 0xFFFFFFFFFFFFFFFF) ∧
    Cpu.execute_op cpuDiv 0x0220C1B3 =
      some (cpuDiv.write_reg (decoder.rd 0x0220C1B3) 0x8000000000000000) ∧
    ((Cpu.execute_op cpuDiv 0x0220C1B3).map fun s => s.read_reg 3) =
      some 0x8000000000000000 :=
  ⟨⟨by decide, by decide, by decide, by decide⟩,
    (div_rem_spec cpuDiv 0x0220C1B3 (by decide)).2.2.2.2.1 (by decide)
      (by decide) (by decide),
    by decide⟩

/-- The stored LSR bits reflect the FIFO and TSR state exactly. -/
def lsrReflects (u : Uart) : Prop :=
  (u.lsr &&& LSR_DR ≠ 0 ↔ u.rx_fifo ≠ []) ∧
  (u.lsr &&& LSR_THRE ≠ 0 ↔ u.tx_fifo = []) ∧
  (u.lsr &&& LSR_TEMT ≠ 0 ↔ (u.tx_fifo = [] ∧ u.tsr = none))

instance (u : Uart) : Decidable (lsrReflects u) := by
  unfold lsrReflects
  infer_instance

lemma and_pow_ne (x i : Nat) : (x &&& 2 ^ i ≠ 0) ↔ x.testBit i := by
  rw [Nat.and_two_pow]
  cases h : x.testBit i <;> simp

lemma and1_ne (x : Nat) : (x &&& 1 ≠ 0) ↔ x.testBit 0 := by
  rw [show (1 : Nat) = 2 ^ 0 from by norm_num]
  exact and_pow_ne x 0

lemma and32_ne (x : Nat) : (x &&& 32 ≠ 0) ↔ x.testBit 5 := by
  rw [show (32 : Nat) = 2 ^ 5 from by norm_num]
  exact and_pow_ne x 5

lemma and64_ne (x : Nat) : (x &&& 64 ≠ 0) ↔ x.testBit 6 := by
  rw [show (64 : Nat) = 2 ^ 6 from by norm_num]
  exact and_pow_ne x 6

lemma update_lsr_reflects (u : Uart) : lsrReflects u.update_lsr := by
  refine ⟨?_, ?_, ?_⟩ <;>
  by_cases hrx : u.rx_fifo = [] <;> by_cases htx : u.tx_fifo = [] <;>
  by_cases hts : u.tsr = none <;>
  simp only [Uart.update_lsr, lsrReflects, LSR_DR, LSR_THRE, LSR_TEMT,
    hrx, htx, hts, if_true, if_false, ne_eq, not_false_eq_true, not_true_eq_false,
    ite_true, ite_false] <;>
  simp [hrx, htx, hts, and1_ne, and32_ne, and64_ne,
    Nat.testBit_lor, Nat.testBit_land,
    show Nat.testBit 1 0 = true from by decide,
    show Nat.testBit 32 0 = false from by decide,
    show Nat.testBit 64 0 = false from by decide,
    show Nat.testBit 254 0 = false from by decide,
    show Nat.testBit 191 0 = true from by decide,
    show Nat.testBit 159 0 = true from by decide,
    show Nat.testBit 1 5 = false from by decide,
    show Nat.testBit 32 5 = true from by decide,
    show Nat.testBit 64 5 = false from by decide,
    show Nat.testBit 254 5 = true from by decide,
    show Nat.testBit 191 5 = true from by decide,
    show Nat.testBit 159 5 = false from by decide,
    show Nat.testBit 1 6 = false from by decide,
    show Nat.testBit 32 6 = false from by decide,
    show Nat.testBit 64 6 = true from by decide,
    show Nat.testBit 254 6 = true from by decide,
    show Nat.testBit 191 6 = false from by decide,
    show Nat.testBit 159 6 = false from by decide]

lemma update_lsr_rx (u : Uart) : u.update_lsr.rx_fifo = u.rx_fifo := rfl

lemma update_lsr_tx (u : Uart) : u.update_lsr.tx_fifo = u.tx_fifo := rfl

lemma update_lsr_tsr (u : Uart) : u.update_lsr.tsr = u.tsr := rfl

lemma reflects_of_fields (u v : Uart) (hlsr : v.lsr = u.update_lsr.lsr)
    (hrx : v.rx_fifo = u.rx_fifo) (htx : v.tx_fifo = u.tx_fifo)
    (hts : v.tsr = u.tsr) : lsrReflects v := by
  have h := update_lsr_reflects u
  unfold lsrReflects at h ⊢
  rw [hlsr, hrx, htx, hts]
  rw [update_lsr_rx, update_lsr_tx, update_lsr_tsr] at h
  exact h

lemma reflects_update_iir (u : Uart) (h : lsrReflects u) :
    lsrReflects u.update_iir := by
  simp only [Uart.update_iir]
  split
  · exact h
  · split
    · exact h
    · exact h

lemma transmit_inv (u : Uart) (ht : u.tsr = none) :
    lsrReflects u.transmit ∧ u.transmit.tsr = none := by
  obtain ⟨rx, tx, tsr, ier, iir, lcr, lsr, scr, tin, tout⟩ := u
  simp only at ht
  subst ht
  cases tx with
  | nil =>
    refine ⟨?_, rfl⟩
    exact reflects_of_fields ⟨rx, [], none, ier, iir, lcr, lsr, scr, tin, tout⟩
      _ rfl rfl rfl rfl
  | cons d rest =>
    refine ⟨?_, rfl⟩
    exact reflects_of_fields ⟨rx, rest, none, ier, iir, lcr, lsr, scr, tin, tout⟩
      _ rfl rfl rfl rfl

lemma update_iir_tsr (u : Uart) : u.update_iir.tsr = u.tsr := by
  simp only [Uart.update_iir]
  split
  · rfl
  · split
    · rfl
    · rfl

lemma transmit_out_tsr (u : Uart) (ht : u.tsr = none) : u.transmit.tsr = none := by
  obtain ⟨rx, tx, tsr, ier, iir, lcr, lsr, scr, tin, tout⟩ := u
  simp only at ht
  subst ht
  cases tx with
  | nil => rfl
  | cons d rest => rfl

lemma reflects_congr (u v : Uart) (hl : v.lsr = u.lsr)
    (hr : v.rx_fifo = u.rx_fifo) (ht2 : v.tx_fifo = u.tx_fifo)
    (hs : v.tsr = u.tsr) (h : lsrReflects u) : lsrReflects v := by
  unfold lsrReflects at h ⊢
  rw [hl, hr, ht2, hs]
  exact h

lemma rx_fifo_push_inv (u : Uart) (d : Nat) (h : lsrReflects u)
    (ht : u.tsr = none) :
    lsrReflects (u.rx_fifo_push d) ∧ (u.rx_fifo_push d).tsr = none := by
  by_cases hlen : u.rx_fifo.length < 16
  · constructor
    · simp only [Uart.rx_fifo_push, if_pos hlen]
      apply reflects_update_iir
      exact reflects_of_fields { u with rx_fifo := u.rx_fifo ++ [d] } _
        rfl rfl rfl rfl
    · simp only [Uart.rx_fifo_push, if_pos hlen]
      rw [update_iir_tsr, update_lsr_tsr]
      exact ht
  · simp only [Uart.rx_fifo_push, if_neg hlen]
    exact ⟨h, ht⟩

lemma tx_fifo_push_tsr (u : Uart) (d : Nat) : (u.tx_fifo_push d).tsr = u.tsr := by
  by_cases hlen : u.tx_fifo.length < 16
  · simp only [Uart.tx_fifo_push, if_pos hlen]
    rw [update_lsr_tsr]
  · simp only [Uart.tx_fifo_push, if_neg hlen]

lemma push_input_inv (u : Uart) (d : Nat) (h : lsrReflects u)
    (ht : u.tsr = none) :
    lsrReflects (u.push_input d) ∧ (u.push_input d).tsr = none :=
  rx_fifo_push_inv u d h ht

lemma receive_input_inv (u : Uart) (h : lsrReflects u) (ht : u.tsr = none) :
    lsrReflects u.receive_input ∧ u.receive_input.tsr = none := by
  unfold Uart.receive_input
  cases hti : u.termInput with
  | nil => exact ⟨h, ht⟩
  | cons d rest =>
    apply rx_fifo_push_inv
    · exact reflects_congr u _ rfl rfl rfl rfl h
    · exact ht

lemma read8_inv (u : Uart) (off v : Nat) (u2 : Uart) (h : lsrReflects u)
    (ht : u.tsr = none) (heq : u.read8 off = some (v, u2)) :
    lsrReflects u2 ∧ u2.tsr = none := by
  by_cases h0 : off = 0
  · subst h0
    simp only [Uart.read8, if_pos rfl] at heq
    rcases hrx : u.rx_fifo with _ | ⟨d, rest⟩
    · have hp : u.rx_fifo_pop.1 = none := by
        simp [Uart.rx_fifo_pop, hrx]
      rw [hp] at heq
      simp only [Option.some.injEq, Prod.mk.injEq] at heq
      obtain ⟨-, rfl⟩ := heq
      constructor
      · simp only [Uart.rx_fifo_pop]
        exact reflects_of_fields { u with rx_fifo := u.rx_fifo.tail } _
          rfl rfl rfl rfl
      · simp only [Uart.rx_fifo_pop]
        rw [update_lsr_tsr]
        exact ht
    · have hp : u.rx_fifo_pop.1 = some d := by
        simp [Uart.rx_fifo_pop, hrx]
      rw [hp] at heq
      simp only [Option.some.injEq, Prod.mk.injEq] at heq
      obtain ⟨-, rfl⟩ := heq
      constructor
      · apply reflects_update_iir
        exact reflects_of_fields u.rx_fifo_pop.2 _ rfl rfl rfl rfl
      · rw [update_iir_tsr, update_lsr_tsr]
        simp only [Uart.rx_fifo_pop]
        rw [update_lsr_tsr]
        exact ht
  · simp only [Uart.read8, if_neg h0] at heq
    by_cases h1 : off = 1
    · rw [if_pos h1] at heq
      simp only [Option.some.injEq, Prod.mk.injEq] at heq
      obtain ⟨-, rfl⟩ := heq
      exact ⟨h, ht⟩
    · rw [if_neg h1] at heq
      by_cases h2 : off = 2
      · rw [if_pos h2] at heq
        simp only [Option.some.injEq, Prod.mk.injEq] at heq
        obtain ⟨-, rfl⟩ := heq
        exact ⟨h, ht⟩
      · rw [if_neg h2] at heq
        by_cases h3 : off = 3
        · rw [if_pos h3] at heq
          simp only [Option.some.injEq, Prod.mk.injEq] at heq
          obtain ⟨-, rfl⟩ := heq
          exact ⟨h, ht⟩
        · rw [if_neg h3] at heq
          by_cases h5 : off = 5
          · rw [if_pos h5] at heq
            simp only [Option.some.injEq, Prod.mk.injEq] at heq
            obtain ⟨-, rfl⟩ := heq
            refine ⟨update_lsr_reflects u, ?_⟩
            rw [update_lsr_tsr]
            exact ht
          · rw [if_neg h5] at heq
            by_cases h7 : off = 7
            · rw [if_pos h7] at heq
              simp only [Option.some.injEq, Prod.mk.injEq] at heq
              obtain ⟨-, rfl⟩ := heq
              exact ⟨h, ht⟩
            · rw [if_neg h7] at heq
              exact absurd heq (by simp)

lemma write8_inv (u : Uart) (off value : Nat) (u2 : Uart) (h : lsrReflects u)
    (ht : u.tsr = none)
    (hfcr : off = 2 → (value &&& 0x2 ≠ 0 → u.rx_fifo = []) ∧
      (value &&& 0x4 ≠ 0 → u.tx_fifo = []))
    (heq : u.write8 off value = some u2) :
    lsrReflects u2 ∧ u2.tsr = none := by
  by_cases h0 : off = 0
  · subst h0
    have hw : u.write8 0 value =
        some (((u.tx_fifo_push value).transmit).update_iir) := by
      simp [Uart.write8]
    rw [hw, Option.some.injEq] at heq
    subst heq
    have htp : (u.tx_fifo_push value).tsr = none := by
      rw [tx_fifo_push_tsr]
      exact ht
    have htr := transmit_inv (u.tx_fifo_push value) htp
    refine ⟨reflects_update_iir _ htr.1, ?_⟩
    rw [update_iir_tsr]
    exact htr.2
  · by_cases h1 : off = 1
    · subst h1
      have hw : u.write8 1 value =
          some (({ u with ier := (u.ier &&& 0xF0) ||| (value &&& 0x0F)
            }).update_iir) := by
        simp [Uart.write8]
      rw [hw, Option.some.injEq] at heq
      subst heq
      refine ⟨reflects_update_iir _ (reflects_congr u _ rfl rfl rfl rfl h), ?_⟩
      rw [update_iir_tsr]
      exact ht
    · by_cases h2 : off = 2
      · subst h2
        obtain ⟨hg2, hg4⟩ := hfcr rfl
        obtain ⟨hd, hh, hm⟩ := h
        by_cases hb2 : value &&& 0x2 ≠ 0 <;> by_cases hb4 : value &&& 0x4 ≠ 0
        · have hw : u.write8 2 value =
              some { u with rx_fifo := [], tx_fifo := [] } := by
            simp [Uart.write8, hb2, hb4]
          rw [hw, Option.some.injEq] at heq
          subst heq
          refine ⟨⟨?_, ?_, ?_⟩, ht⟩
          · simpa [lsrReflects, hg2 hb2] using hd
          · simpa [hg4 hb4] using hh
          · simpa [hg4 hb4] using hm
        · have hw : u.write8 2 value = some { u with rx_fifo := [] } := by
            simp [Uart.write8, hb2, hb4]
          rw [hw, Option.some.injEq] at heq
          subst heq
          refine ⟨⟨?_, ?_, ?_⟩, ht⟩
          · simpa [hg2 hb2] using hd
          · exact hh
          · exact hm
        · have hw : u.write8 2 value = some { u with tx_fifo := [] } := by
            simp [Uart.write8, hb2, hb4]
          rw [hw, Option.some.injEq] at heq
          subst heq
          refine ⟨⟨?_, ?_, ?_⟩, ht⟩
          · exact hd
          · simpa [hg4 hb4] using hh
          · simpa [hg4 hb4] using hm
        · have hw : u.write8 2 value = some u := by
            simp [Uart.write8, hb2, hb4]
          rw [hw, Option.some.injEq] at heq
          subst heq
          exact ⟨⟨hd, hh, hm⟩, ht⟩
      · by_cases h3 : off = 3
        · subst h3
          have hw : u.write8 3 value = some { u with lcr := value } := by
            simp [Uart.write8]
          rw [hw, Option.some.injEq] at heq
          subst heq
          exact ⟨reflects_congr u _ rfl rfl rfl rfl h, ht⟩
        · by_cases h7 : off = 7
          · subst h7
            have hw : u.write8 7 value = some { u with scr := value } := by
              simp [Uart.write8]
            rw [hw, Option.some.injEq] at heq
            subst heq
            exact ⟨reflects_congr u _ rfl rfl rfl rfl h, ht⟩
          · have hw : u.write8 off value = none := by
              simp [Uart.write8, h0, h1, h2, h3, h7]
            rw [hw] at heq
            exact absurd heq (by simp)

/-- States reachable from an initial UART through the public operations
read8, write8, push_input, receive_input (unrestricted, panicking
operations excluded). -/
inductive UartReachFull : Uart → Prop where
  | init (input : List Nat) : UartReachFull (Uart.new input)
  | rd (u : Uart) (off v : Nat) (u2 : Uart) (hu : UartReachFull u)
      (heq : u.read8 off = some (v, u2)) : UartReachFull u2
  | wr (u : Uart) (off value : Nat) (u2 : Uart) (hu : UartReachFull u)
      (heq : u.write8 off value = some u2) : UartReachFull u2
  | push (u : Uart) (d : Nat) (hu : UartReachFull u) :
      UartReachFull (u.push_input d)
  | recv (u : Uart) (hu : UartReachFull u) : UartReachFull u.receive_input

/-- States reachable through the same operations, where an FCR write
(offset 2) happens only when each FIFO it clears is already empty. -/
inductive UartReach : Uart → Prop where
  | init (input : List Nat) : UartReach (Uart.new input)
  | rd (u : Uart) (off v : Nat) (u2 : Uart) (hu : UartReach u)
      (heq : u.read8 off = some (v, u2)) : UartReach u2
  | wr (u : Uart) (off value : Nat) (u2 : Uart) (hu : UartReach u)
      (hfcr : off = 2 → (value &&& 0x2 ≠ 0 → u.rx_fifo = []) ∧
        (value &&& 0x4 ≠ 0 → u.tx_fifo = []))
      (heq : u.write8 off value = some u2) : UartReach u2
  | push (u : Uart) (d : Nat) (hu : UartReach u) : UartReach (u.push_input d)
  | recv (u : Uart) (hu : UartReach u) : UartReach u.receive_input

/-- Induction along guarded reachability: the LSR reflects the state and
the TSR is always drained between operations. -/
lemma uart_reach_state_inv (u : Uart) (h : UartReach u) :
    lsrReflects u ∧ u.tsr = none := by
  induction h with
  | init input =>
    refine ⟨⟨?_, ?_, ?_⟩, rfl⟩ <;>
    simp [Uart.new, LSR_DR, LSR_THRE, LSR_TEMT]
  | rd u off v u2 hu heq ih => exact read8_inv u off v u2 ih.1 ih.2 heq
  | wr u off value u2 hu hfcr heq ih =>
    exact write8_inv u off value u2 ih.1 ih.2 hfcr heq
  | push u d hu ih => exact push_input_inv u d ih.1 ih.2
  | recv u hu ih => exact receive_input_inv u ih.1 ih.2

/-- The stale state produced by pushing one RX byte and then clearing the
RX FIFO through FCR. -/
def uartStale : Uart := (((Uart.new []).push_input 65).write8 2 2).getD (Uart.new [])

/-- Counterexample to C5 as stated: over the unrestricted operation set,
an FCR write that clears a non-empty RX FIFO leaves LSR.DR stale, so the
stored LSR does not reflect the FIFO state in every reachable state. -/
theorem uart_lsr_claim_counterexample :
    ¬ (∀ u : Uart, UartReachFull u → lsrReflects u) := by
  intro hclaim
  have r0 : UartReachFull (Uart.new []) := UartReachFull.init []
  have r1 : UartReachFull ((Uart.new []).push_input 65) :=
    UartReachFull.push _ 65 r0
  have hw : ((Uart.new []).push_input 65).write8 2 2 = some uartStale := by
    decide
  have r2 : UartReachFull uartStale := UartReachFull.wr _ 2 2 uartStale r1 hw
  exact absurd (hclaim uartStale r2) (by decide)

/-- C5 (amended): for every UART state reachable from the initial state
by read8, write8, push_input and receive_input, where FCR writes only
clear already-empty FIFOs, the stored LSR bits reflect the FIFO/TSR state
exactly: DR iff RX non-empty, THRE iff TX empty, TEMT iff TX empty and
TSR empty. -/
theorem uart_lsr_invariant (u : Uart) (h : UartReach u) : lsrReflects u :=
  (uart_reach_state_inv u h).1

/-- Witness for `uart_lsr_invariant`: after pushing one input byte the
LSR reflects the state (DR set). -/
theorem uart_lsr_invariant_witness :
    UartReach ((Uart.new []).push_input 65) ∧
    lsrReflects ((Uart.new []).push_input 65) ∧
    ((Uart.new []).push_input 65).lsr &&& LSR_DR ≠ 0 :=
  ⟨UartReach.push _ 65 (UartReach.init []),
   uart_lsr_invariant _ (UartReach.push _ 65 (UartReach.init [])),
   by decide⟩

/-- Counterexample to C6 as stated: a wide UART read does not read the
offset-0 RBR register; at offset 5 it returns the LSR (0x60 on the fresh
device) while an RBR read returns 0. -/
theorem bus_uart_wide_access_counterexample :
    ¬ (∀ (b : Bus) (a : Nat), UART_BASE ≤ a → a < UART_BASE + UART_SIZE →
        ((Bus.read16 b a).map Prod.fst = (Uart.read8 b.uart 0).map Prod.fst ∧
         (Bus.read32 b a).map Prod.fst = (Uart.read8 b.uart 0).map Prod.fst ∧
         (Bus.read64 b a).map Prod.fst = (Uart.read8 b.uart 0).map Prod.fst)) := by
  intro hclaim
  have h := (hclaim (Bus.new []) 0x10000005 (by decide) (by decide)).1
  exact absurd h (by decide)

/-- C6 (amended): for every address in the UART range, a 16-, 32-, or
64-bit bus access performs the single byte-wide UART access at the
addressed offset `a - UART_BASE` — the wide read equals the 8-bit read at
the same address (zero-extended) and the wide write equals the 8-bit
write of the value's low 8 bits at the same address. -/
theorem bus_uart_wide_access_byte (b : Bus) (a v : Nat)
    (h1 : UART_BASE ≤ a) (h2 : a < UART_BASE + UART_SIZE) :
    Bus.read16 b a = Bus.read8 b a ∧
    Bus.read32 b a = Bus.read8 b a ∧
    Bus.read64 b a = Bus.read8 b a ∧
    Bus.write16 b a v = Bus.write8 b a (v % 0x100) ∧
    Bus.write32 b a v = Bus.write8 b a (v % 0x100) ∧
    Bus.write64 b a v = Bus.write8 b a (v % 0x100) := by
  have hu : UART_BASE ≤ a ∧ a < UART_BASE + UART_SIZE := ⟨h1, h2⟩
  have hnc : ¬ (CLINT_BASE ≤ a ∧ a < CLINT_BASE + CLINT_SIZE) := by
    simp only [UART_BASE, UART_SIZE] at h1 h2
    simp only [CLINT_BASE, CLINT_SIZE]
    omega
  refine ⟨?_, ?_, ?_, ?_, ?_, ?_⟩ <;>
  simp [Bus.read8, Bus.read16, Bus.read32, Bus.read64, Bus.write8,
    Bus.write16, Bus.write32, Bus.write64, hu, hnc]

/-- Witness for `bus_uart_wide_access_byte`: at the LSR offset the 16-bit
read coincides with the 8-bit read. -/
theorem bus_uart_wide_access_byte_witness :
    (UART_BASE ≤ 0x10000005 ∧ 0x10000005 < UART_BASE + UART_SIZE) ∧
    Bus.read16 (Bus.new []) 0x10000005 = Bus.read8 (Bus.new []) 0x10000005 ∧
    (Bus.read16 (Bus.new []) 0x10000005).map Prod.fst = some 0x60 :=
  ⟨⟨by decide, by decide⟩,
    (bus_uart_wide_access_byte (Bus.new []) 0x10000005 0 (by decide)
      (by decide)).1,
    by decide⟩

/-- C8: `ElfFile::load` panics (slice index out of range) on truncated
input instead of returning `Err(ParseError)`; the four validation errors
are surfaced as claimed on inputs long enough to parse the header. The
first two conjuncts evaluate the loader at the failing inputs (the empty
slice and a 0x39-byte slice): the outcome is a panic, not
`Err(ParseError)`. -/
theorem elf_load_truncated_panics :
    ElfFile.load [] = none ∧
    ElfFile.load (List.replicate 0x39 0) = none ∧
    ElfFile.load (List.replicate 0x3A 0) =
      some (Except.error ElfError.InvalidMagic) ∧
    ElfFile.load (ELF_MAGIC ++ List.replicate 0x36 0) =
      some (Except.error ElfError.InvalidClass) ∧
    ElfFile.load (ELF_MAGIC ++ [2] ++ List.replicate 0x35 0) =
      some (Except.error ElfError.InvalidEndian) ∧
    ElfFile.load (ELF_MAGIC ++ [2, 1] ++ List.replicate 0x34 0) =
      some (Except.error ElfError.InvalidMachine) := by
  exact ⟨rfl, rfl, rfl, rfl, rfl, rfl⟩
